import Mathlib

/-!
A shallow Lean embedding of the constitution policy-enforcement engine of this
repository (src/constitution): the schema data model, the five detection-rule
evaluators, the clause evaluator, the decision engine and the policy loader,
together with theorems settling the specification claims about them.

Modelling conventions:
* Python floats are modelled as exact rationals.  All numeric literals in the
  source (0.7, 0.5, 0.3, 1.0, 0.0) are small decimal constants whose float
  rounding never crosses a comparison boundary for realistic rule counts.
* Python strings are Lean Strings; the Python expression needle in haystack
  on strings is substring containment on the underlying character lists.
* Python dicts keyed by strings are association lists with the dict update
  semantics (assignment to an existing key keeps its position).
* The regular-expression engine (the re module) is external: a regex rule
  configuration carries the outcome of re.compile, where none models a
  re.error at construction time and some f models the compiled pattern with
  its finditer match function.
-/

namespace Constitution

/-- Python substring containment: the expression needle in haystack for strings. -/
def pyStrIn (sub s : String) : Bool := decide (sub.data <:+: s.data)

/-- Python str.lower, character by character (String.map Char.toLower,
written on the underlying character list). -/
def pyLower (s : String) : String := ⟨s.data.map Char.toLower⟩

/-- Python str slicing text[:n], by code points. -/
def pyTake (s : String) (n : Nat) : String := ⟨s.data.take n⟩

/-- Python sep.join(parts). -/
def pyJoin (sep : String) : List String → String
  | [] => ""
  | [x] => x
  | x :: xs => x ++ sep ++ pyJoin sep xs

/-- The run accumulator of splitWhitespace. -/
def splitWsAux : List Char → List Char → List String
  | [], cur => if cur.isEmpty then [] else [⟨cur.reverse⟩]
  | c :: rest, cur =>
    if c.isWhitespace then
      if cur.isEmpty then splitWsAux rest []
      else ⟨cur.reverse⟩ :: splitWsAux rest []
    else splitWsAux rest (c :: cur)

/-- Python str.split() with no arguments: maximal runs of non-whitespace
characters, no empty tokens. -/
def splitWhitespace (s : String) : List String := splitWsAux s.data []

/-- Python dict assignment d[k] = v on an association list: replaces the value
at an existing key in place, otherwise appends the binding at the end. -/
def dictInsert {α : Type} (l : List (String × α)) (k : String) (v : α) : List (String × α) :=
  match l with
  | [] => [(k, v)]
  | (k', v') :: t => if k' = k then (k, v) :: t else (k', v') :: dictInsert t k v

/-- Stable descending insertion by a string key: inserts x before the first
element whose key is strictly smaller.  foldl over this reproduces the Python
sorted(..., key, reverse=True), which is stable for equal keys. -/
def insertDescBy {α : Type} (key : α → String) (x : α) : List α → List α
  | [] => [x]
  | y :: ys => if key y < key x then x :: y :: ys else y :: insertDescBy key x ys

/-- Python sorted(l, key, reverse=True): stable sort, descending by key. -/
def sortDescBy {α : Type} (key : α → String) (l : List α) : List α :=
  l.foldl (fun acc x => insertDescBy key x acc) []

/-! ### Schema (src/constitution/parser/schema.py) -/

/-- Enforcement level of a clause (schema.EnforcementLevel). -/
inductive EnforcementLevel where
  | required
  | recommended
  | optional
deriving DecidableEq

/-- Detection rule kind (schema.RuleType). -/
inductive RuleType where
  | keyword_check
  | regex_check
  | semantic_check
  | llm_judge
  | composite
deriving DecidableEq

/-- Violation handling action (schema.ViolationAction). -/
inductive ViolationAction where
  | reject
  | warn
  | append_warning
  | suggest_tool
  | log_audit
  | correct_auto
deriving DecidableEq

/-- The string value of a ViolationAction enum member. -/
def ViolationAction.value : ViolationAction → String
  | .reject => "reject"
  | .warn => "warn"
  | .append_warning => "append_warning"
  | .suggest_tool => "suggest_tool"
  | .log_audit => "log_audit"
  | .correct_auto => "correct_auto"

/-- The kind-specific rule configuration dict, modelled as a record of every
key the rule constructors read, each with the constructor's .get default.
regex_matches is the outcome of the external re.compile on pattern: none
models a compile error, some f the compiled pattern (finditer match list). -/
structure RuleConfigData where
  keywords : List String := []
  prohibited_keywords : List String := []
  match_mode : String := "any"
  required_count : Int := 1
  case_sensitive : Bool := false
  pattern : String := ""
  required : Bool := true
  regex_matches : Option (String → List String) := none
  reference_texts : List String := []
  threshold : ℚ := 8/10
  judge_prompt : String := ""
  expected_response : String := "是"
  operator : String := "AND"

/-- schema.DetectionRuleConfig. -/
structure DetectionRuleConfig where
  rule_id : String
  rule_type : RuleType
  config : RuleConfigData
  weight : ℚ := 1
  enabled : Bool := true
  description : String := ""

/-- schema.ViolationActionConfig. -/
structure ViolationActionConfig where
  action : ViolationAction
  message : Option String := none
  tool_name : Option String := none
  severity : String := "medium"
deriving DecidableEq

/-- schema.EnforcementConfig. -/
structure EnforcementConfig where
  level : EnforcementLevel
  pre_check : Bool := true
  post_check : Bool := true
  violation_actions : List ViolationActionConfig := []

/-- schema.ConstitutionalClause (the created_at/updated_at timestamps and the
open metadata map are external presentation data and are not modelled). -/
structure Clause where
  id : String
  name : String
  description : String
  category : String := "general"
  priority : Int := 100
  detection_rules : List DetectionRuleConfig := []
  enforcement : EnforcementConfig
  associated_tools : List String := []
  required_disclaimer : Option String := none
  version : String := "1.0.0"

/-- schema.ClauseGroup. -/
structure ClauseGroup where
  name : String
  clause_ids : List String
  description : String := ""
  enforcement_mode : String := "strict"

/-- schema.ConstitutionConfig (the open metadata/enforcement/audit maps are
not modelled; no code path of the claims reads them). -/
structure ConstitutionConfig where
  version : String
  clauses : List Clause
  clause_groups : List ClauseGroup := []

/-- schema.DetectionResult (the open details map is explanation data; the
message field carries the human-readable part the claims mention). -/
structure DetectionResult where
  rule_id : String
  rule_type : RuleType
  passed : Bool
  score : ℚ
  message : String := ""
deriving DecidableEq

/-- schema.ClauseCheckResult. -/
structure ClauseCheckResult where
  clause_id : String
  clause_name : String
  overall_passed : Bool
  score : ℚ := 0
  failed_rules : List String := []
  passed_rules : List String := []
  violation_level : String := "none"
  suggested_actions : List ViolationAction := []
  details : List DetectionResult := []
deriving DecidableEq

/-- A checkpoint summary: a ClauseCheckResult onto which the engine setattrs
the per-clause result dict (details_by_clause).  The dynamic attribute is
modelled as a field that defaults to the empty dict. -/
structure SummaryResult extends ClauseCheckResult where
  details_by_clause : List (String × ClauseCheckResult) := []
deriving DecidableEq

/-- schema.ConstitutionCheckResult (timestamp and audit_log_id are external). -/
structure ConstitutionCheckResult where
  query_id : String
  pre_check : Option SummaryResult := none
  post_check : Option SummaryResult := none
  overall_passed : Bool := true
  overall_score : ℚ := 1
  highest_risk_clause : Option String := none
  highest_risk_level : String := "none"
  should_proceed : Bool := true
  requires_correction : Bool := false
  correction_suggestions : List String := []
deriving DecidableEq

/-! ### Detection rules (src/constitution/rules/detection_rules.py) -/

/-- KeywordDetectionRule after construction: keyword lists already carry the
case rule applied in the constructor. -/
structure KeywordRuleData where
  rule_id : String
  keywords : List String
  prohibited_keywords : List String
  match_mode : String
  required_count : Int
  case_sensitive : Bool
  weight : ℚ

/-- KeywordDetectionRule.__init__: reads the config dict and lowercases both
keyword lists when the rule is case-insensitive. -/
def mkKeywordRule (rule_id : String) (cfg : RuleConfigData) (weight : ℚ) : KeywordRuleData :=
  { rule_id := rule_id
    keywords := if cfg.case_sensitive then cfg.keywords else cfg.keywords.map pyLower
    prohibited_keywords :=
      if cfg.case_sensitive then cfg.prohibited_keywords
      else cfg.prohibited_keywords.map pyLower
    match_mode := cfg.match_mode
    required_count := cfg.required_count
    case_sensitive := cfg.case_sensitive
    weight := weight }

/-- RegexDetectionRule after construction: compiled records whether re.compile
succeeded, matcher is the compiled pattern's finditer match list. -/
structure RegexRuleData where
  rule_id : String
  pattern : String
  required : Bool
  compiled : Bool
  matcher : String → List String
  weight : ℚ

/-- SemanticDetectionRule after construction. -/
structure SemanticRuleData where
  rule_id : String
  reference_texts : List String
  threshold : ℚ
  weight : ℚ

/-- LLMJudgeDetectionRule after construction. -/
structure LLMRuleData where
  rule_id : String
  judge_prompt : String
  expected_response : String
  weight : ℚ

/-- BaseDetectionRule._create_result: score is 1.0 for a pass, 0.0 for a fail,
multiplied by the rule weight. -/
def create_result (rule_id : String) (rule_type : RuleType) (weight : ℚ)
    (passed : Bool) (message : String) : DetectionResult :=
  { rule_id := rule_id, rule_type := rule_type, passed := passed
    score := (if passed then 1 else 0) * weight, message := message }

/-- KeywordDetectionRule._check_match_passed: any found prohibited keyword
fails immediately, then the match mode decides; an unknown mode fails. -/
def KeywordRuleData.checkMatchPassed (r : KeywordRuleData)
    (found_keywords found_prohibited : List String) : Bool :=
  if found_prohibited ≠ [] then false
  else if r.match_mode = "any" then (found_keywords.length : Int) ≥ r.required_count
  else if r.match_mode = "all" then found_keywords.length ≥ r.keywords.length
  else if r.match_mode = "none" then found_keywords.length = 0
  else false

/-- KeywordDetectionRule._generate_message (the Python set difference for the
missing-keyword list has unspecified iteration order; modelled in
first-occurrence order). -/
def KeywordRuleData.genMessage (r : KeywordRuleData)
    (found_keywords found_prohibited : List String) : String :=
  if found_prohibited ≠ [] then
    "发现禁止关键词: " ++ pyJoin ", " (found_prohibited.take 3)
  else if r.match_mode = "any" ∧ (found_keywords.length : Int) < r.required_count then
    "需要至少 " ++ toString r.required_count ++ " 个关键词，但只找到 "
      ++ toString found_keywords.length ++ " 个"
  else if r.match_mode = "all" ∧ found_keywords.length < r.keywords.length then
    "缺少关键词: " ++ pyJoin ", "
      (((r.keywords.filter (fun k => ¬ found_keywords.contains k)).dedup).take 3)
  else "通过关键词检查"

/-- KeywordDetectionRule.evaluate. -/
def KeywordRuleData.evaluate (r : KeywordRuleData) (text : String) : DetectionResult :=
  let text_to_check := if r.case_sensitive then text else pyLower text
  let found_keywords := r.keywords.filter (fun k => pyStrIn k text_to_check)
  let found_prohibited := r.prohibited_keywords.filter (fun k => pyStrIn k text_to_check)
  create_result r.rule_id .keyword_check r.weight
    (r.checkMatchPassed found_keywords found_prohibited)
    (r.genMessage found_keywords found_prohibited)

/-- RegexDetectionRule.evaluate: a rule whose pattern failed to compile
permanently fails with the invalid-configuration message. -/
def RegexRuleData.evaluate (r : RegexRuleData) (text : String) : DetectionResult :=
  if ¬ r.compiled then
    create_result r.rule_id .regex_check r.weight false "正则表达式配置错误"
  else
    let match_count := (r.matcher text).length
    if r.required then
      create_result r.rule_id .regex_check r.weight (match_count > 0)
        (if match_count > 0 then "找到 " ++ toString match_count ++ " 个匹配" else "未找到匹配")
    else
      create_result r.rule_id .regex_check r.weight (match_count = 0)
        (if match_count = 0 then "无匹配（通过）"
         else "不应匹配但找到 " ++ toString match_count ++ " 个匹配")

/-- SemanticDetectionRule._jaccard_similarity on whitespace-tokenized,
lower-cased word sets. -/
def jaccard_similarity (text1 text2 : String) : ℚ :=
  let words1 := (splitWhitespace (pyLower text1)).dedup
  let words2 := (splitWhitespace (pyLower text2)).dedup
  if words1 = [] ∧ words2 = [] then 1
  else
    let inter := (words1.filter (fun w => words2.contains w)).length
    let union := (words1 ++ words2.filter (fun w => ¬ words1.contains w)).length
    if union > 0 then (inter : ℚ) / union else 0

/-- SemanticDetectionRule.evaluate (the Python message interpolates the best
similarity with a two-decimal float format; that numeric formatting is
presentation-only and abbreviated here). -/
def SemanticRuleData.evaluate (r : SemanticRuleData) (text : String) : DetectionResult :=
  if r.reference_texts = [] then
    create_result r.rule_id .semantic_check r.weight true "无参考文本，跳过语义检查"
  else
    let best := r.reference_texts.foldl
      (fun best ref => let s := jaccard_similarity text ref; if s > best then s else best) 0
    create_result r.rule_id .semantic_check r.weight (best ≥ r.threshold) "语义相似度检查"

/-- LLMJudgeDetectionRule.evaluate: the collaborator is never wired in, so the
rule always passes (vacuously when no judge prompt is configured, as an
unimplemented stub otherwise). -/
def LLMRuleData.evaluate (r : LLMRuleData) (_text : String) : DetectionResult :=
  if r.judge_prompt = "" then
    create_result r.rule_id .llm_judge r.weight true "无判断提示，跳过LLM检查"
  else
    create_result r.rule_id .llm_judge r.weight true "LLM检查暂未实现（需要集成Ollama）"

/-- A constructed detection rule evaluator (the closed set of
BaseDetectionRule subclasses). -/
inductive Rule where
  | keyword (r : KeywordRuleData)
  | regex (r : RegexRuleData)
  | semantic (r : SemanticRuleData)
  | llm (r : LLMRuleData)
  | comp (rule_id : String) (operator : String) (sub_rules : List Rule) (weight : ℚ)

/-- The rule_id of a constructed rule. -/
def Rule.ruleId : Rule → String
  | .keyword r => r.rule_id
  | .regex r => r.rule_id
  | .semantic r => r.rule_id
  | .llm r => r.rule_id
  | .comp rule_id _ _ _ => rule_id

mutual

/-- Rule evaluation: dispatches on the rule kind; CompositeDetectionRule
evaluates every sub-rule against the same text, combines by operator and
overrides the score with the mean of the sub-scores times its weight. -/
def Rule.evaluate : Rule → String → DetectionResult
  | .keyword r, t => r.evaluate t
  | .regex r, t => r.evaluate t
  | .semantic r, t => r.evaluate t
  | .llm r, t => r.evaluate t
  | .comp rule_id operator subs weight, t =>
    if subs.isEmpty then
      create_result rule_id .composite weight true "无子规则，跳过复合检查"
    else
      let results := Rule.evalList subs t
      let all_passed := results.all (·.passed)
      let any_passed := results.any (·.passed)
      let passed :=
        if operator = "AND" then all_passed
        else if operator = "OR" then any_passed
        else all_passed
      let avg_score := if results ≠ [] then (results.map (·.score)).sum / results.length else 0
      let base := create_result rule_id .composite weight passed
        ("复合规则检查: " ++ operator ++ "操作, " ++ toString (results.countP (·.passed))
          ++ "/" ++ toString results.length ++ " 通过")
      { base with score := avg_score * weight }

/-- Evaluation of a list of sub-rules in order. -/
def Rule.evalList : List Rule → String → List DetectionResult
  | [], _ => []
  | r :: rs, t => r.evaluate t :: Rule.evalList rs t

end

/-- DetectionRuleFactory.create_rule.  Nothing in the repository ever calls
CompositeDetectionRule.add_sub_rule, so a factory-built composite rule always
has an empty sub-rule list. -/
def create_rule (rc : DetectionRuleConfig) : Rule :=
  match rc.rule_type with
  | .keyword_check => .keyword (mkKeywordRule rc.rule_id rc.config rc.weight)
  | .regex_check => .regex
      { rule_id := rc.rule_id, pattern := rc.config.pattern
        required := rc.config.required
        compiled := rc.config.regex_matches.isSome
        matcher := rc.config.regex_matches.getD (fun _ => [])
        weight := rc.weight }
  | .semantic_check => .semantic
      { rule_id := rc.rule_id, reference_texts := rc.config.reference_texts
        threshold := rc.config.threshold, weight := rc.weight }
  | .llm_judge => .llm
      { rule_id := rc.rule_id, judge_prompt := rc.config.judge_prompt
        expected_response := rc.config.expected_response, weight := rc.weight }
  | .composite => .comp rc.rule_id rc.config.operator [] rc.weight

/-! ### Rule evaluator (src/constitution/rules/rule_evaluator.py)

RuleEvaluator caches constructed rules keyed by rule id and rule type; a rule
is a deterministic function of its configuration, so for distinct rule ids the
cache is behaviour-equivalent to constructing on every call, which is how it
is modelled here. -/

/-- RuleEvaluator._create_skipped_result. -/
def create_skipped_result (clause : Clause) : ClauseCheckResult :=
  { clause_id := clause.id, clause_name := clause.name
    overall_passed := true, score := 1
    failed_rules := [], passed_rules := [], violation_level := "none"
    suggested_actions := [], details := [] }

/-- RuleEvaluator._determine_violation_level: none without failures, else
computed from the failure ratio and the enforcement level. -/
def determine_violation_level (clause : Clause) (failed_rules : List String)
    (total_rules : Nat) : String :=
  if failed_rules = [] then "none"
  else
    let failure_ratio : ℚ := (failed_rules.length : ℚ) / (total_rules : ℚ)
    match clause.enforcement.level with
    | .required =>
      if failure_ratio ≥ 1/2 then "high"
      else if failure_ratio ≥ 3/10 then "medium"
      else "low"
    | .recommended =>
      if failure_ratio ≥ 7/10 then "medium" else "low"
    | .optional => "low"

/-- The severity-to-action whitelist used by _get_suggested_actions (its
severity_mapping dict, looked up with a default of the empty list). -/
def severity_mapping (violation_level : String) : List String :=
  if violation_level = "high" then ["reject", "log_audit"]
  else if violation_level = "medium" then ["warn", "append_warning", "log_audit"]
  else if violation_level = "low" then ["append_warning", "suggest_tool"]
  else []

/-- RuleEvaluator._get_suggested_actions: empty for a passing clause,
otherwise the configured actions whose kind is whitelisted for the computed
violation level, in configuration order. -/
def get_suggested_actions (clause : Clause) (overall_passed : Bool)
    (violation_level : String) : List ViolationAction :=
  if overall_passed then []
  else
    (clause.enforcement.violation_actions.filter
      (fun ac => (severity_mapping violation_level).contains ac.action.value)).map (·.action)

/-- The rule-evaluation loop and aggregation of RuleEvaluator.evaluate_clause,
reached once the checkpoint applies and at least one rule is enabled.  Only
the scores of rules that passed enter total_score, exactly as in the source
loop. -/
def evaluate_clause_main (clause : Clause) (text : String) : ClauseCheckResult :=
  let rules_to_evaluate := (clause.detection_rules.filter (·.enabled)).map create_rule
  let evaluated := rules_to_evaluate.map (fun r => (r, r.evaluate text))
  let all_results := evaluated.map (·.2)
  let failed_rule_ids := (evaluated.filter (fun p => ¬ p.2.passed)).map (fun p => p.1.ruleId)
  let passed_rule_ids := (evaluated.filter (fun p => p.2.passed)).map (fun p => p.1.ruleId)
  let total_score := ((evaluated.filter (fun p => p.2.passed)).map (fun p => p.2.score)).sum
  let rule_count := rules_to_evaluate.length
  let passed_count := passed_rule_ids.length
  let overall_passed :=
    match clause.enforcement.level with
    | .required => failed_rule_ids.length = 0
    | .recommended => decide ((passed_count : ℚ) ≥ (rule_count : ℚ) * (7/10))
    | .optional => true
  let avg_score := if rule_count > 0 then total_score / (rule_count : ℚ) else 1
  let violation_level := determine_violation_level clause failed_rule_ids rule_count
  { clause_id := clause.id, clause_name := clause.name
    overall_passed := overall_passed, score := avg_score
    failed_rules := failed_rule_ids, passed_rules := passed_rule_ids
    violation_level := violation_level
    suggested_actions := get_suggested_actions clause overall_passed violation_level
    details := all_results }

/-- RuleEvaluator.evaluate_clause. -/
def evaluate_clause (clause : Clause) (text : String) (check_type : String) : ClauseCheckResult :=
  if check_type = "pre_check" ∧ ¬ clause.enforcement.pre_check then
    create_skipped_result clause
  else if check_type = "post_check" ∧ ¬ clause.enforcement.post_check then
    create_skipped_result clause
  else if ((clause.detection_rules.filter (·.enabled)).map create_rule).isEmpty then
    create_skipped_result clause
  else
    evaluate_clause_main clause text

/-- RuleEvaluator.batch_evaluate: the Python dict build over the clause list. -/
def batch_evaluate (clauses : List Clause) (text : String) (check_type : String) :
    List (String × ClauseCheckResult) :=
  clauses.foldl (fun results c => dictInsert results c.id (evaluate_clause c text check_type)) []

/-- RuleEvaluator.get_high_risk_clauses: the high and medium entries, sorted
stably by the level string descending (Python sorted with reverse=True). -/
def get_high_risk_clauses (results : List (String × ClauseCheckResult)) :
    List (String × String) :=
  sortDescBy (·.2)
    ((results.filter (fun p => p.2.violation_level = "high" ∨ p.2.violation_level = "medium")).map
      (fun p => (p.1, p.2.violation_level)))

/-! ### Policy loader (src/constitution/parser/constitution_parser.py) -/

/-- ConstitutionParser.get_clause_by_id on a loaded config: first clause with
the given id, in document order. -/
def get_clause_by_id (cfg : ConstitutionConfig) (clause_id : String) : Option Clause :=
  cfg.clauses.find? (fun c => c.id = clause_id)

/-- ConstitutionParser.get_clauses_with_pre_check. -/
def get_clauses_with_pre_check (cfg : ConstitutionConfig) : List Clause :=
  cfg.clauses.filter (fun c => c.enforcement.pre_check)

/-- ConstitutionParser.get_clauses_with_post_check. -/
def get_clauses_with_post_check (cfg : ConstitutionConfig) : List Clause :=
  cfg.clauses.filter (fun c => c.enforcement.post_check)

/-- Raw YAML data for one violation action; required keys are Option (a
missing key raises) and optional keys carry the .get default. -/
structure RawViolationAction where
  action : Option String
  message : Option String := none
  tool_name : Option String := none
  severity : String := "medium"

/-- Raw YAML data for one detection rule. -/
structure RawDetectionRule where
  rule_id : Option String
  rtype : Option String
  config : RuleConfigData := {}
  weight : ℚ := 1
  enabled : Bool := true
  description : String := ""

/-- Raw YAML data for the enforcement block (all keys read with defaults). -/
structure RawEnforcement where
  level : String := "required"
  pre_check : Bool := true
  post_check : Bool := true
  violation_actions : List RawViolationAction := []

/-- Raw YAML data for one clause. -/
structure RawClause where
  id : Option String
  name : Option String
  description : Option String
  category : String := "general"
  priority : Int := 100
  detection_rules : List RawDetectionRule := []
  enforcement : RawEnforcement := {}
  associated_tools : List String := []
  required_disclaimer : Option String := none
  version : String := "1.0.0"

/-- Raw YAML data for one clause group. -/
structure RawClauseGroup where
  name : Option String
  clause_ids : Option (List String)
  description : String := ""
  enforcement_mode : String := "strict"

/-- Raw YAML data for a whole constitution document. -/
structure RawConfig where
  version : Option String
  clauses : List RawClause := []
  clause_groups : List RawClauseGroup := []

/-- EnforcementLevel(value): fails on an unknown value. -/
def enforcementLevelOf : String → Option EnforcementLevel
  | "required" => some .required
  | "recommended" => some .recommended
  | "optional" => some .optional
  | _ => none

/-- RuleType(value): fails on an unknown value. -/
def ruleTypeOf : String → Option RuleType
  | "keyword_check" => some .keyword_check
  | "regex_check" => some .regex_check
  | "semantic_check" => some .semantic_check
  | "llm_judge" => some .llm_judge
  | "composite" => some .composite
  | _ => none

/-- ViolationAction(value): fails on an unknown value. -/
def violationActionOf : String → Option ViolationAction
  | "reject" => some .reject
  | "warn" => some .warn
  | "append_warning" => some .append_warning
  | "suggest_tool" => some .suggest_tool
  | "log_audit" => some .log_audit
  | "correct_auto" => some .correct_auto
  | _ => none

/-- Lifts a required raw field into the parse monad: a missing key or invalid
enum raises, which aborts the load. -/
def requireField {α : Type} (msg : String) : Option α → Except String α
  | some a => .ok a
  | none => .error msg

/-- Parsing of one detection rule inside _parse_clause. -/
def parse_detection_rule (rd : RawDetectionRule) : Except String DetectionRuleConfig := do
  let rid ← requireField "KeyError: rule_id" rd.rule_id
  let tyStr ← requireField "KeyError: type" rd.rtype
  let ty ← requireField "ValueError: invalid rule type" (ruleTypeOf tyStr)
  .ok { rule_id := rid, rule_type := ty, config := rd.config
        weight := rd.weight, enabled := rd.enabled, description := rd.description }

/-- Parsing of one violation action inside _parse_clause. -/
def parse_violation_action (ra : RawViolationAction) : Except String ViolationActionConfig := do
  let aStr ← requireField "KeyError: action" ra.action
  let a ← requireField "ValueError: invalid violation action" (violationActionOf aStr)
  .ok { action := a, message := ra.message, tool_name := ra.tool_name, severity := ra.severity }

/-- The per-item loop bodies of _parse_clause, folded over the raw lists. -/
def parse_detection_rules : List RawDetectionRule → Except String (List DetectionRuleConfig)
  | [] => .ok []
  | rd :: rds => do
    let r ← parse_detection_rule rd
    let rs ← parse_detection_rules rds
    .ok (r :: rs)

/-- The violation-action loop of _parse_clause. -/
def parse_violation_actions : List RawViolationAction → Except String (List ViolationActionConfig)
  | [] => .ok []
  | ra :: ras => do
    let a ← parse_violation_action ra
    let as_ ← parse_violation_actions ras
    .ok (a :: as_)

/-- ConstitutionParser._parse_clause. -/
def parse_clause (rc : RawClause) : Except String Clause := do
  let rules ← parse_detection_rules rc.detection_rules
  let actions ← parse_violation_actions rc.enforcement.violation_actions
  let level ← requireField "ValueError: invalid enforcement level"
    (enforcementLevelOf rc.enforcement.level)
  let cid ← requireField "KeyError: id" rc.id
  let cname ← requireField "KeyError: name" rc.name
  let cdesc ← requireField "KeyError: description" rc.description
  .ok { id := cid, name := cname, description := cdesc
        category := rc.category, priority := rc.priority
        detection_rules := rules
        enforcement :=
          { level := level, pre_check := rc.enforcement.pre_check
            post_check := rc.enforcement.post_check, violation_actions := actions }
        associated_tools := rc.associated_tools
        required_disclaimer := rc.required_disclaimer
        version := rc.version }

/-- The clause loop of _parse_config. -/
def parse_clauses : List RawClause → Except String (List Clause)
  | [] => .ok []
  | rc :: rcs => do
    let c ← parse_clause rc
    let cs ← parse_clauses rcs
    .ok (c :: cs)

/-- The clause-group loop of _parse_config. -/
def parse_clause_groups : List RawClauseGroup → Except String (List ClauseGroup)
  | [] => .ok []
  | rg :: rgs => do
    let gname ← requireField "KeyError: name" rg.name
    let gids ← requireField "KeyError: clause_ids" rg.clause_ids
    let gs ← parse_clause_groups rgs
    .ok ({ name := gname, clause_ids := gids, description := rg.description
           enforcement_mode := rg.enforcement_mode } :: gs)

/-- ConstitutionParser._parse_config, the whole body of load_from_string and
load_from_file after the YAML text has been read: no validation is performed
here, the parsed clauses are returned as-is. -/
def parse_config (raw : RawConfig) : Except String ConstitutionConfig := do
  let clauses ← parse_clauses raw.clauses
  let groups ← parse_clause_groups raw.clause_groups
  let v ← requireField "KeyError: version" raw.version
  .ok { version := v, clauses := clauses, clause_groups := groups }

/-- The duplicate-id loop of validate_config: a membership check against the
already-seen ids, then the id is added to the seen set. -/
def duplicate_id_errors (seen : List String) : List Clause → List String
  | [] => []
  | c :: cs =>
    (if seen.contains c.id then ["条款ID重复: " ++ c.id] else [])
      ++ duplicate_id_errors (seen ++ [c.id]) cs

/-- The clause-group reference loop of validate_config. -/
def group_reference_errors (cfg : ConstitutionConfig) : List String :=
  cfg.clause_groups.foldl
    (fun errs g =>
      errs ++ (g.clause_ids.filter (fun cid => (get_clause_by_id cfg cid).isNone)).map
        (fun cid => "条款组 \x27" ++ g.name ++ "\x27 引用不存在的条款: " ++ cid))
    []

/-- The rule-weight loop of validate_config. -/
def weight_errors (cfg : ConstitutionConfig) : List String :=
  cfg.clauses.foldl
    (fun errs c =>
      errs ++ (c.detection_rules.filter (fun r => r.weight < 0 ∨ r.weight > 1)).map
        (fun r => "条款 " ++ c.id ++ " 规则 " ++ r.rule_id ++ " 权重必须在0-1之间"))
    []

/-- ConstitutionParser.validate_config on a loaded config: the three error
lists in the order the source accumulates them.  load never calls this. -/
def validate_config (cfg : ConstitutionConfig) : List String :=
  duplicate_id_errors [] cfg.clauses ++ group_reference_errors cfg ++ weight_errors cfg

/-! ### Decision engine (src/constitution/engine/constitution_engine.py) -/

/-- engine.EnforcementDecision (with the __post_init__ defaults). -/
structure EnforcementDecision where
  should_proceed : Bool := true
  requires_correction : Bool := false
  correction_suggestions : List String := []
  safe_response : Option String := none
  warnings : List String := []
  audit_info : List (String × String) := []
deriving DecidableEq

/-- One audit-log record written by _log_audit (the wall-clock timestamp is
external and not modelled). -/
structure AuditEntry where
  query_id : String
  check_type : String
  text_preview : String
  overall_passed : Bool
  overall_score : ℚ
  highest_risk_clause : Option String
  highest_risk_level : String
  should_proceed : Bool
  requires_correction : Bool
  decision_info : Option (List (String × String))
deriving DecidableEq

/-- The mutable state of a ConstitutionEngine: the loaded config (shared with
its parser), the query history dict and the audit log. -/
structure EngineState where
  config : Option ConstitutionConfig := none
  query_history : List (String × ConstitutionCheckResult) := []
  audit_logs : List AuditEntry := []

/-- The ValueError raises of check_input / check_output, by reason. -/
inductive EngineError where
  | configNotLoaded
  | notFound (query_id : String)
deriving DecidableEq

/-- ConstitutionEngine._summarize_check_results. -/
def summarize_check_results (results : List (String × ClauseCheckResult))
    (check_type : String) : SummaryResult :=
  if results.isEmpty then
    { clause_id := "summary_" ++ check_type, clause_name := check_type ++ "汇总"
      overall_passed := true, score := 1, violation_level := "none"
      details_by_clause := [] }
  else
    let vals := results.map (·.2)
    let passed_clauses := vals.filter (·.overall_passed)
    let overall_passed := passed_clauses.length = vals.length
    let avg_score := (vals.map (·.score)).sum / (results.length : ℚ)
    let highest_risk :=
      if vals.any (fun r => r.violation_level = "high") then "high"
      else if vals.any (fun r => r.violation_level = "medium") then "medium"
      else if vals.any (fun r => r.violation_level = "low") then "low"
      else "none"
    { clause_id := "summary_" ++ check_type, clause_name := check_type ++ "汇总"
      overall_passed := overall_passed, score := avg_score
      violation_level := highest_risk, details_by_clause := results }

/-- ConstitutionEngine._generate_safe_response: the first configured reject
action with a truthy message, falling back to a templated refusal naming the
clause; associated tools are appended as a suggestion line. -/
def generate_safe_response (clause : Clause) (_user_input : String) : String :=
  let rejection_msg :=
    match clause.enforcement.violation_actions.find?
      (fun ac => ac.action = .reject ∧ ac.message.getD "" ≠ "") with
    | some ac => ac.message.getD ""
    | none => "抱歉，根据\x27" ++ clause.name ++ "\x27，我无法处理这个请求。"
  if clause.associated_tools.isEmpty then rejection_msg
  else rejection_msg ++ "\n\n您可以尝试使用以下工具: "
        ++ pyJoin "、" clause.associated_tools

/-- ConstitutionEngine._generate_clause_suggestions. -/
def generate_clause_suggestions (clause : Clause) (risk_level : String) : List String :=
  ["优化\x27" ++ clause.name ++ "\x27相关的内容"]
    ++ (if clause.associated_tools.isEmpty then []
        else ["考虑使用工具: " ++ pyJoin "、" (clause.associated_tools.take 3)])
    ++ (if risk_level = "high" then ["建议彻底修改相关内容"]
        else if risk_level = "medium" then ["建议添加澄清说明"]
        else [])

/-- The reject scan of _make_enforcement_decision: the first clause result in
dict order that failed, whose clause resolves to a required-level clause and
whose suggested actions contain reject. -/
def find_reject (cfg : ConstitutionConfig) :
    List (String × ClauseCheckResult) → Option (String × Clause × ClauseCheckResult)
  | [] => none
  | (cid, r) :: rest =>
    match get_clause_by_id cfg cid with
    | some c =>
      if ¬ r.overall_passed ∧ c.enforcement.level = .required
          ∧ r.suggested_actions.contains .reject then
        some (cid, c, r)
      else find_reject cfg rest
    | none => find_reject cfg rest

/-- ConstitutionEngine._make_enforcement_decision. -/
def make_enforcement_decision (cfg : ConstitutionConfig)
    (results : List (String × ClauseCheckResult)) (user_input : String) : EnforcementDecision :=
  match find_reject cfg results with
  | some (cid, c, r) =>
    { should_proceed := false
      requires_correction := false
      correction_suggestions := []
      safe_response := some (generate_safe_response c user_input)
      warnings := []
      audit_info :=
        [("rejected_clause", cid), ("violation_level", r.violation_level),
         ("reason", "违反必须遵守的宪法条款")] }
  | none =>
    let high_risk := get_high_risk_clauses results
    if high_risk.isEmpty then {}
    else
      { should_proceed := true
        requires_correction := true
        correction_suggestions := high_risk.foldl
          (fun acc p =>
            match get_clause_by_id cfg p.1 with
            | some c => acc ++ generate_clause_suggestions c p.2
            | none => acc) []
        warnings := high_risk.foldl
          (fun acc p =>
            match get_clause_by_id cfg p.1 with
            | some c =>
              if p.2 = "high" ∨ p.2 = "medium" then
                acc ++ ["注意: " ++ c.name ++ " 风险级别: " ++ p.2]
              else acc
            | none => acc) []
        safe_response := none
        audit_info := [] }

/-- ConstitutionEngine._get_highest_risk_clause. -/
def get_highest_risk_clause (results : List (String × ClauseCheckResult)) : Option String :=
  match get_high_risk_clauses results with
  | [] => none
  | p :: _ => some p.1

/-- ConstitutionEngine._generate_corrections (Python builds list(set(...)),
whose iteration order is unspecified; modelled as first-occurrence dedup). -/
def generate_corrections (cfg : ConstitutionConfig)
    (results : List (String × ClauseCheckResult)) (_text : String) : List String :=
  (results.foldl
    (fun acc p =>
      if ¬ p.2.overall_passed then
        match get_clause_by_id cfg p.1 with
        | some c =>
          acc ++ ((p.2.details.filter (fun d => ¬ d.passed ∧ d.message ≠ "")).map
            (fun d => "【" ++ c.name ++ "】" ++ d.message))
        | none => acc
      else acc)
    []).dedup

/-- ConstitutionEngine._log_audit: appends one record to the audit log. -/
def log_audit (s : EngineState) (query_id check_type text : String)
    (result : ConstitutionCheckResult) (decision : Option EnforcementDecision) : EngineState :=
  { s with audit_logs := s.audit_logs ++
      [{ query_id := query_id, check_type := check_type
         text_preview := if text.length > 100 then pyTake text 100 ++ "..." else text
         overall_passed := result.overall_passed
         overall_score := result.overall_score
         highest_risk_clause := result.highest_risk_clause
         highest_risk_level := result.highest_risk_level
         should_proceed := result.should_proceed
         requires_correction := result.requires_correction
         decision_info := decision.map (·.audit_info) }] }

/-- ConstitutionEngine.check_input.  The query id is the caller-supplied id,
or the engine-generated uuid when the caller passed none; uuid generation is
external, so the id is a parameter here.  A missing config raises before any
state is touched. -/
def check_input (s : EngineState) (user_input : String) (query_id : String) :
    EngineState × Except EngineError (ConstitutionCheckResult × EnforcementDecision) :=
  match s.config with
  | none => (s, .error .configNotLoaded)
  | some cfg =>
    let pre_check_clauses := get_clauses_with_pre_check cfg
    let pre_check_results := batch_evaluate pre_check_clauses user_input "pre_check"
    let pre_check_summary := summarize_check_results pre_check_results "pre_check"
    let enforcement_decision := make_enforcement_decision cfg pre_check_results user_input
    let result : ConstitutionCheckResult :=
      { query_id := query_id
        pre_check := some pre_check_summary
        post_check := none
        overall_passed := enforcement_decision.should_proceed
        overall_score := pre_check_summary.score
        highest_risk_clause := get_highest_risk_clause pre_check_results
        highest_risk_level := pre_check_summary.violation_level
        should_proceed := enforcement_decision.should_proceed
        requires_correction := enforcement_decision.requires_correction
        correction_suggestions := enforcement_decision.correction_suggestions }
    let s1 := log_audit s query_id "pre_check" user_input result (some enforcement_decision)
    let s2 := { s1 with query_history := dictInsert s1.query_history query_id result }
    (s2, .ok (result, enforcement_decision))

/-- ConstitutionEngine.check_output.  Raises before any state is touched when
the config is missing or the query id was never pre-checked. -/
def check_output (s : EngineState) (ai_output : String) (query_id : String) :
    EngineState × Except EngineError ConstitutionCheckResult :=
  match s.config with
  | none => (s, .error .configNotLoaded)
  | some cfg =>
    match s.query_history.lookup query_id with
    | none => (s, .error (.notFound query_id))
    | some previous_result =>
      let post_check_clauses := get_clauses_with_post_check cfg
      let post_check_results := batch_evaluate post_check_clauses ai_output "post_check"
      let post_check_summary := summarize_check_results post_check_results "post_check"
      let result : ConstitutionCheckResult :=
        { query_id := query_id
          pre_check := previous_result.pre_check
          post_check := some post_check_summary
          overall_passed := post_check_summary.overall_passed
          overall_score := (previous_result.overall_score + post_check_summary.score) / 2
          highest_risk_clause := get_highest_risk_clause post_check_results
          highest_risk_level := post_check_summary.violation_level
          should_proceed := true
          requires_correction := ¬ post_check_summary.overall_passed
          correction_suggestions := generate_corrections cfg post_check_results ai_output }
      let s1 := { s with query_history := dictInsert s.query_history query_id result }
      let s2 := log_audit s1 query_id "post_check" ai_output result none
      (s2, .ok result)

/-- The disclaimer-append step shared by both halves of
apply_constitutional_corrections: append the disclaimer unless it is already
present verbatim in the text. -/
def addDisclaimer (text disclaimer : String) : String :=
  if pyStrIn disclaimer text then text else text ++ "\n\n" ++ disclaimer

/-- ConstitutionEngine._apply_clause_corrections: appends the disclaimer of a
safety clause when it is configured (truthy) and not yet present. -/
def apply_clause_corrections (text : String) (clause : Clause) : String :=
  if clause.category = "safety" ∧ clause.required_disclaimer.getD "" ≠ "" then
    addDisclaimer text (clause.required_disclaimer.getD "")
  else text

/-- ConstitutionEngine.apply_constitutional_corrections. -/
def apply_constitutional_corrections (cfg : ConstitutionConfig) (text : String)
    (check_result : ConstitutionCheckResult) : String :=
  if ¬ check_result.requires_correction then text
  else
    let details := match check_result.post_check with
      | some pc => pc.details_by_clause
      | none => []
    let t1 := details.foldl
      (fun acc p =>
        match get_clause_by_id cfg p.1 with
        | some c =>
          if c.required_disclaimer.getD "" ≠ "" then
            addDisclaimer acc (c.required_disclaimer.getD "")
          else acc
        | none => acc)
      text
    let high_risk := get_high_risk_clauses details
    high_risk.foldl
      (fun acc p =>
        match get_clause_by_id cfg p.1 with
        | some c =>
          if c.enforcement.level = .required then apply_clause_corrections acc c
          else acc
        | none => acc)
      t1

/-! ### Concrete fixtures used by witnesses and counterexamples -/

/-- A keyword rule requiring the keyword data, as in end-to-end scenario B. -/
def kwRequireData : DetectionRuleConfig :=
  { rule_id := "R-001", rule_type := .keyword_check
    config := { keywords := ["data"], match_mode := "any", required_count := 1 } }

/-- A keyword rule prohibiting diagnose/prescribe, as in end-to-end scenario A. -/
def kwProhibitDiagnose : DetectionRuleConfig :=
  { rule_id := "R-002", rule_type := .keyword_check
    config := { prohibited_keywords := ["diagnose", "prescribe"] } }

/-- Scenario-A clause: required level, pre-checked, keyword rule prohibiting
diagnose/prescribe, with a configured reject action. -/
def clauseC002 : Clause :=
  { id := "C-002", name := "医疗安全", description := "禁止诊断处方"
    category := "safety"
    detection_rules := [kwProhibitDiagnose]
    enforcement :=
      { level := .required
        violation_actions := [{ action := .reject, message := none }] } }

/-- A recommended-level clause whose single keyword rule fails on input x and
that configures no violation action: it fails without triggering a reject. -/
def clauseRecommendedFailing : Clause :=
  { id := "C-REC", name := "推荐条款", description := "推荐"
    detection_rules := [kwRequireData]
    enforcement := { level := .recommended, violation_actions := [] } }

/-- An optional-level clause whose single keyword rule fails on input x and
that configures an append_warning violation action. -/
def clauseOptionalFailing : Clause :=
  { id := "C-OPT", name := "可选条款", description := "可选"
    detection_rules := [kwRequireData]
    enforcement := { level := .optional
                     violation_actions := [{ action := .append_warning }] } }

/-- The scenario-A single-clause policy. -/
def cfgC002 : ConstitutionConfig := { version := "1.0.0", clauses := [clauseC002] }

/-- Engine state loaded with the scenario-A single-clause policy. -/
def engineC002 : EngineState := { config := some cfgC002 }

/-- A policy with the single recommended failing clause. -/
def cfgRecommended : ConstitutionConfig :=
  { version := "1.0.0", clauses := [clauseRecommendedFailing] }

/-- Engine state loaded with the single recommended failing clause. -/
def engineRecommended : EngineState := { config := some cfgRecommended }

/-- The reject-qualification predicate of the C1 claim on one clause result:
the clause the engine resolves the result's id to is required-level and the
result's suggested actions include reject. -/
def reject_qualifies (cfg : ConstitutionConfig) (p : String × ClauseCheckResult) : Bool :=
  match get_clause_by_id cfg p.1 with
  | some c => c.enforcement.level = .required ∧ p.2.suggested_actions.contains .reject
  | none => false

/-- The shared shape of both disclaimer-appending folds of
apply_constitutional_corrections: extract an applicable disclaimer from the
entry, append it unless already present. -/
def disclaimerStep {α : Type} (g : α → Option String) (acc : String) (x : α) : String :=
  match g x with
  | some d => addDisclaimer acc d
  | none => acc

/-- The post-check per-clause result dict read by
apply_constitutional_corrections (empty when there is no post-check result,
matching the hasattr guard). -/
def post_details (cr : ConstitutionCheckResult) : List (String × ClauseCheckResult) :=
  match cr.post_check with
  | some pc => pc.details_by_clause
  | none => []

/-- The disclaimer extracted by the first corrections fold for one entry of
the post-check result dict. -/
def extractDisclaimer1 (cfg : ConstitutionConfig) (p : String × ClauseCheckResult) :
    Option String :=
  match get_clause_by_id cfg p.1 with
  | some c => if c.required_disclaimer.getD "" ≠ "" then some (c.required_disclaimer.getD "") else none
  | none => none

/-- The disclaimer extracted by the second corrections fold for one high-risk
entry. -/
def extractDisclaimer2 (cfg : ConstitutionConfig) (p : String × String) : Option String :=
  match get_clause_by_id cfg p.1 with
  | some c =>
    if c.enforcement.level = .required then
      if c.category = "safety" ∧ c.required_disclaimer.getD "" ≠ "" then
        some (c.required_disclaimer.getD "")
      else none
    else none
  | none => none

/-- A post-check result requiring correction whose failing clause has a
configured disclaimer. -/
def crWithCorrection : ConstitutionCheckResult :=
  { query_id := "q1"
    requires_correction := true
    post_check := some
      { clause_id := "summary_post_check", clause_name := "post_check汇总"
        overall_passed := false, score := 0, violation_level := "none"
        details_by_clause :=
          [("C-DISC", { clause_id := "C-DISC", clause_name := "免责", overall_passed := false })] } }

/-- A clause carrying a required disclaimer, for the corrections fixtures. -/
def clauseWithDisclaimer : Clause :=
  { id := "C-DISC", name := "免责", description := "免责声明"
    category := "safety"
    enforcement := { level := .required }
    required_disclaimer := some "本建议仅供参考，请咨询专业医生。" }

/-- The single-clause config used by the corrections fixtures. -/
def cfgDisclaimer : ConstitutionConfig :=
  { version := "1.0.0", clauses := [clauseWithDisclaimer] }

/-- A raw clause with id C-001 and no rules, used twice to build a document
with duplicate clause ids. -/
def rawClauseC001 : RawClause :=
  { id := some "C-001", name := some "条款一", description := some "重复条款" }

/-- A raw document whose two clauses share the id C-001. -/
def rawDup : RawConfig :=
  { version := some "1.0.0", clauses := [rawClauseC001, rawClauseC001] }

/-- A case-insensitive keyword configuration prohibiting Diagnose while also
requiring the keyword please. -/
def cfgW2 : RuleConfigData :=
  { prohibited_keywords := ["Diagnose"], keywords := ["please"], match_mode := "any" }

/-- Engine state with a loaded policy and one pre-checked query q0 in the
history. -/
def engineWithHistory : EngineState :=
  { config := some { version := "1.0.0", clauses := [clauseC002] }
    query_history := [("q0", { query_id := "q0" })] }

/-- A RegexDetectionRule whose pattern failed to compile. -/
def badRegexData : RegexRuleData :=
  { rule_id := "R-BAD", pattern := "([", required := true, compiled := false
    matcher := fun _ => [], weight := 1 }

/-- A regex rule configuration whose pattern failed to compile (the external
re.compile outcome is none). -/
def badRegexRule : DetectionRuleConfig :=
  { rule_id := "R-BAD", rule_type := .regex_check
    config := { pattern := "([", regex_matches := none } }

/-- A clause carrying only the failed-compile regex rule. -/
def clauseBadRegex : Clause :=
  { id := "C-BAD", name := "坏正则", description := "编译失败的正则"
    detection_rules := [badRegexRule]
    enforcement := { level := .required } }

/-- Engine state whose policy has the bad-regex clause next to a healthy
clause. -/
def engineTwoClauses : EngineState :=
  { config := some { version := "1.0.0", clauses := [clauseBadRegex, clauseC002] } }

/-! ### Helper lemmas -/

@[simp]
theorem create_result_passed (i : String) (ty : RuleType) (w : ℚ) (p : Bool) (m : String) :
    (create_result i ty w p m).passed = p := rfl

@[simp]
theorem create_result_score (i : String) (ty : RuleType) (w : ℚ) (p : Bool) (m : String) :
    (create_result i ty w p m).score = (if p then 1 else 0) * w := rfl

@[simp]
theorem create_result_message (i : String) (ty : RuleType) (w : ℚ) (p : Bool) (m : String) :
    (create_result i ty w p m).message = m := rfl

/-! ### C8: unknown query id on check_output -/

/-- Claim C8: with a loaded policy, check_output on a query id absent from the
query history fails with the not-found error and leaves the whole engine
state (query history and audit log included) unchanged; on a known query id
it does not fail for that reason. -/
theorem C8_check_output_unknown_query (s : EngineState) (cfg : ConstitutionConfig)
    (ai_output query_id : String) (hcfg : s.config = some cfg) :
    (s.query_history.lookup query_id = none →
      check_output s ai_output query_id = (s, .error (.notFound query_id))) ∧
    (∀ prev, s.query_history.lookup query_id = some prev →
      ∃ res, (check_output s ai_output query_id).2 = .ok res) := by
  constructor
  · intro h
    simp [check_output, hcfg, h]
  · intro prev h
    simp [check_output, hcfg, h]

/-- Witness for C8 at a concrete loaded engine: query id missing vs. the
stored query q0. -/
theorem C8_witness :
    engineWithHistory.query_history.lookup "missing" = none ∧
    engineWithHistory.config = some { version := "1.0.0", clauses := [clauseC002] } ∧
    check_output engineWithHistory "output" "missing" =
      (engineWithHistory, .error (.notFound "missing")) ∧
    (∃ res, (check_output engineWithHistory "output" "q0").2 = .ok res) :=
  ⟨rfl, rfl,
    (C8_check_output_unknown_query engineWithHistory _ "output" "missing" rfl).1 rfl,
    (C8_check_output_unknown_query engineWithHistory _ "output" "q0" rfl).2 _ rfl⟩

/-- The suggested actions of the aggregation step are computed from its own
overall verdict and violation level. -/
theorem main_suggested_actions (clause : Clause) (text : String) :
    (evaluate_clause_main clause text).suggested_actions =
      get_suggested_actions clause (evaluate_clause_main clause text).overall_passed
        (evaluate_clause_main clause text).violation_level := rfl

/-- A skipped clause result passes with no suggested actions. -/
theorem skipped_result_fields (clause : Clause) :
    (create_skipped_result clause).overall_passed = true ∧
    (create_skipped_result clause).suggested_actions = [] := ⟨rfl, rfl⟩

/-- When the checkpoint applies and at least one rule is enabled,
evaluate_clause runs the aggregation step. -/
theorem evaluate_clause_applies (clause : Clause) (text check_type : String)
    (hcp : (check_type = "pre_check" ∧ clause.enforcement.pre_check = true) ∨
           (check_type = "post_check" ∧ clause.enforcement.post_check = true))
    (hne : clause.detection_rules.filter (·.enabled) ≠ []) :
    evaluate_clause clause text check_type = evaluate_clause_main clause text := by
  have hmapne : (((clause.detection_rules.filter (·.enabled)).map create_rule).isEmpty) = false := by
    rw [Bool.eq_false_iff]
    intro hmap
    rw [List.isEmpty_iff] at hmap
    exact hne (List.map_eq_nil_iff.mp hmap)
  unfold evaluate_clause
  rcases hcp with ⟨h1, h2⟩ | ⟨h1, h2⟩
  · rw [if_neg (fun hc => hc.2 h2), if_neg (fun hc => by
      rw [h1] at hc; exact absurd hc.1 (by decide)), if_neg (by rw [hmapne]; exact Bool.false_ne_true)]
  · rw [if_neg (fun hc => by rw [h1] at hc; exact absurd hc.1 (by decide)),
      if_neg (fun hc => hc.2 h2), if_neg (by rw [hmapne]; exact Bool.false_ne_true)]

/-! ### C6: suggested actions versus violation level -/

/-- Counterexample to claim C6: an optional-level clause with a failing rule
has violation level low and a configured append_warning action (which the
low whitelist allows), yet its suggested actions are empty, because the code
returns no actions whenever the clause passed overall. -/
theorem C6_counterexample :
    (evaluate_clause clauseOptionalFailing "x" "pre_check").violation_level = "low" ∧
    (evaluate_clause clauseOptionalFailing "x" "pre_check").overall_passed = true ∧
    clauseOptionalFailing.enforcement.violation_actions.map (·.action) =
      [ViolationAction.append_warning] ∧
    (severity_mapping "low").contains ViolationAction.append_warning.value = true ∧
    (evaluate_clause clauseOptionalFailing "x" "pre_check").suggested_actions = [] :=
  ⟨by decide, by decide, by decide, by decide, by decide⟩

/-- Claim C6 amended: a clause result's suggested actions are empty whenever
the clause passed overall (whatever its violation level); only when it failed
overall are they exactly the configured actions whose kind is whitelisted for
the computed violation level. -/
theorem C6_amended_suggested_actions (clause : Clause) (text check_type : String) :
    ((evaluate_clause clause text check_type).overall_passed = true →
      (evaluate_clause clause text check_type).suggested_actions = []) ∧
    ((evaluate_clause clause text check_type).overall_passed = false →
      (evaluate_clause clause text check_type).suggested_actions =
        (clause.enforcement.violation_actions.filter
          (fun ac => (severity_mapping
            (evaluate_clause clause text check_type).violation_level).contains
              ac.action.value)).map (·.action)) := by
  constructor
  · intro h
    unfold evaluate_clause at h ⊢
    split_ifs at h ⊢
    · exact (skipped_result_fields clause).2
    · exact (skipped_result_fields clause).2
    · exact (skipped_result_fields clause).2
    · rw [main_suggested_actions, h]
      rfl
  · intro h
    unfold evaluate_clause at h ⊢
    split_ifs at h ⊢
    · exact Bool.noConfusion h
    · exact Bool.noConfusion h
    · exact Bool.noConfusion h
    · rw [main_suggested_actions, h]
      rfl

/-- Witness for the amended C6 at a concrete failing clause: its suggested
actions are exactly the whitelist filter of its configured actions. -/
theorem C6_amended_witness :
    (evaluate_clause clauseC002 "please diagnose my condition" "pre_check").overall_passed
        = false →
      (evaluate_clause clauseC002 "please diagnose my condition" "pre_check").suggested_actions =
        (clauseC002.enforcement.violation_actions.filter
          (fun ac => (severity_mapping
            (evaluate_clause clauseC002 "please diagnose my condition"
              "pre_check").violation_level).contains ac.action.value)).map (·.action) :=
  (C6_amended_suggested_actions clauseC002 "please diagnose my condition" "pre_check").2

/-! ### C9: duplicate clause ids and the loader -/

/-- A successfully parsed clause keeps the raw id. -/
theorem parse_clause_id (rc : RawClause) (c : Clause) (h : parse_clause rc = .ok c) :
    rc.id = some c.id := by
  unfold parse_clause at h
  simp only [bind, Except.bind] at h
  cases h1 : parse_detection_rules rc.detection_rules <;> rw [h1] at h
  case error => exact Except.noConfusion h
  cases h2 : parse_violation_actions rc.enforcement.violation_actions <;> rw [h2] at h
  case error => exact Except.noConfusion h
  cases h3 : enforcementLevelOf rc.enforcement.level <;> rw [h3] at h
  case none => exact Except.noConfusion h
  cases h4 : rc.id <;> rw [h4] at h
  case none => exact Except.noConfusion h
  cases h5 : rc.name <;> rw [h5] at h
  case none => exact Except.noConfusion h
  cases h6 : rc.description <;> rw [h6] at h
  case none => exact Except.noConfusion h
  simp only [requireField, Except.ok.injEq] at h
  rw [← h]

/-- A successfully parsed clause list keeps the raw ids, in order. -/
theorem parse_clauses_ids (rcs : List RawClause) (cs : List Clause)
    (h : parse_clauses rcs = .ok cs) :
    rcs.map (·.id) = cs.map (fun c => some c.id) := by
  induction rcs generalizing cs with
  | nil =>
    unfold parse_clauses at h
    cases h
    rfl
  | cons rc rest ih =>
    unfold parse_clauses at h
    simp only [bind, Except.bind] at h
    cases h1 : parse_clause rc <;> rw [h1] at h
    case error => exact Except.noConfusion h
    cases h2 : parse_clauses rest <;> rw [h2] at h
    case error => exact Except.noConfusion h
    cases h
    simp only [List.map_cons, List.cons.injEq]
    exact ⟨parse_clause_id _ _ h1, ih _ h2⟩

/-- If the duplicate-id scan reports nothing, the ids are distinct and none of
them had been seen before the scan started. -/
theorem duplicate_id_errors_eq_nil {seen : List String} {cls : List Clause}
    (h : duplicate_id_errors seen cls = []) :
    (cls.map (·.id)).Nodup ∧ ∀ i ∈ cls.map (·.id), i ∉ seen := by
  induction cls generalizing seen with
  | nil => simp
  | cons c cs ih =>
    unfold duplicate_id_errors at h
    by_cases hc : seen.contains c.id
    · rw [if_pos hc] at h
      exact List.noConfusion h
    · rw [if_neg hc, List.nil_append] at h
      obtain ⟨hnd, hnotin⟩ := ih h
      refine ⟨?_, ?_⟩
      · rw [List.map_cons, List.nodup_cons]
        refine ⟨fun hidin => ?_, hnd⟩
        exact hnotin _ hidin (by simp)
      · intro i hi
        rw [List.map_cons, List.mem_cons] at hi
        rcases hi with rfl | hi
        · intro habs
          exact hc (List.elem_iff.mpr habs)
        · intro habs
          exact hnotin _ hi (List.mem_append_left _ habs)

/-- Counterexample to claim C9: the loader parses a document whose two clauses
share the id C-001 and returns it without failing; only the separate validate
step reports the duplication. -/
theorem C9_counterexample :
    ∃ cfg, parse_config rawDup = Except.ok cfg ∧
      cfg.clauses.map (·.id) = ["C-001", "C-001"] ∧
      ¬ (cfg.clauses.map (·.id)).Nodup ∧
      validate_config cfg ≠ [] := by
  refine ⟨_, rfl, by decide, by decide, by decide⟩

/-- Claim C9 amended: load performs no uniqueness check at all — it returns
the parsed clauses with their raw ids unchanged, duplicates included; clause
id uniqueness is checked only by the separate validate step, whose empty
answer guarantees pairwise-distinct ids. -/
theorem C9_amended_load_validate :
    (∀ (raw : RawConfig) (cfg : ConstitutionConfig), parse_config raw = .ok cfg →
      raw.clauses.map (·.id) = cfg.clauses.map (fun c => some c.id)) ∧
    (∀ cfg : ConstitutionConfig, validate_config cfg = [] → (cfg.clauses.map (·.id)).Nodup) := by
  constructor
  · intro raw cfg h
    unfold parse_config at h
    simp only [bind, Except.bind] at h
    cases h1 : parse_clauses raw.clauses <;> rw [h1] at h
    case error => exact Except.noConfusion h
    cases h2 : parse_clause_groups raw.clause_groups <;> rw [h2] at h
    case error => exact Except.noConfusion h
    cases h3 : raw.version <;> rw [h3] at h
    case none => exact Except.noConfusion h
    simp only [requireField, Except.ok.injEq] at h
    rw [← h]
    exact parse_clauses_ids _ _ h1
  · intro cfg h
    unfold validate_config at h
    rw [List.append_assoc, List.append_eq_nil] at h
    exact (duplicate_id_errors_eq_nil h.1).1

/-- Witness for the amended C9: a well-formed two-clause document parses and
validates cleanly, so its ids are distinct. -/
theorem C9_amended_witness :
    validate_config { version := "1.0.0", clauses := [clauseC002, clauseOptionalFailing] } = [] ∧
    (({ version := "1.0.0",
        clauses := [clauseC002, clauseOptionalFailing] : ConstitutionConfig }).clauses.map
      (·.id)).Nodup :=
  ⟨by decide,
    (C9_amended_load_validate.2
      { version := "1.0.0", clauses := [clauseC002, clauseOptionalFailing] }) (by decide)⟩

/-! ### C3 and C5: clause verdict and clause score -/

/-- The float comparison passed_count greater-or-equal rule_count times 0.7,
as an integer inequality. -/
theorem ratio_seventy (p c : ℕ) : ((c : ℚ) * (7/10) ≤ (p : ℚ)) ↔ 7 * c ≤ 10 * p := by
  rw [mul_comm, div_mul_eq_mul_div, div_le_iff₀ (by norm_num : (0:ℚ) < 10),
    show ((7:ℚ) * c) = ((7*c : ℕ) : ℚ) by push_cast; ring,
    show ((p:ℚ) * 10) = ((10*p : ℕ) : ℚ) by push_cast; ring]
  exact Nat.cast_le

/-- Every factory-built rule that fails an evaluation reports score zero: the
four leaf kinds score zero times their weight on failure, and a factory-built
composite rule has no sub-rules, so it never fails. -/
theorem create_rule_fail_score_zero (rc : DetectionRuleConfig) (t : String)
    (h : ((create_rule rc).evaluate t).passed = false) :
    ((create_rule rc).evaluate t).score = 0 := by
  cases hty : rc.rule_type <;>
    simp only [create_rule, hty, Rule.evaluate] at h ⊢
  case keyword_check =>
    simp only [KeywordRuleData.evaluate, create_result_passed] at h
    simp only [KeywordRuleData.evaluate, create_result_score, h]
    simp
  case regex_check =>
    simp only [RegexRuleData.evaluate] at h ⊢
    split_ifs at h ⊢ <;>
      simp only [create_result_passed] at h <;>
      simp only [create_result_score, h] <;> simp
  case semantic_check =>
    simp only [SemanticRuleData.evaluate] at h ⊢
    split_ifs at h ⊢
    · exact Bool.noConfusion h
    · simp only [create_result_passed] at h
      simp only [create_result_score, h]
      simp
  case llm_judge =>
    simp only [LLMRuleData.evaluate] at h
    split_ifs at h <;> exact Bool.noConfusion h
  case composite =>
    exact Bool.noConfusion h

/-- Dropping failing results from a score sum changes nothing when failing
results score zero. -/
theorem sum_scores_passed_eq_sum (l : List DetectionResult)
    (hz : ∀ d ∈ l, d.passed = false → d.score = 0) :
    ((l.filter (·.passed)).map (·.score)).sum = (l.map (·.score)).sum := by
  induction l with
  | nil => rfl
  | cons d rest ih =>
    have hzr : ∀ e ∈ rest, e.passed = false → e.score = 0 :=
      fun e he => hz e (List.mem_cons_of_mem _ he)
    cases hd : d.passed with
    | true => simp [List.filter_cons, hd, ih hzr]
    | false =>
      simp [List.filter_cons, hd, ih hzr, hz d (List.mem_cons_self d rest) hd]

/-- Claim C3: for a clause evaluated at a checkpoint it is configured for,
with at least one enabled rule, the clause verdict follows the enforcement
level: required passes iff no evaluated rule failed, recommended passes iff
at least seventy percent of the evaluated rules passed, optional always
passes. -/
theorem C3_overall_passed_by_level (clause : Clause) (text check_type : String)
    (hcp : (check_type = "pre_check" ∧ clause.enforcement.pre_check = true) ∨
           (check_type = "post_check" ∧ clause.enforcement.post_check = true))
    (hne : clause.detection_rules.filter (·.enabled) ≠ []) :
    (clause.enforcement.level = .required →
      ((evaluate_clause clause text check_type).overall_passed = true ↔
        (((clause.detection_rules.filter (·.enabled)).map create_rule).map
          (·.evaluate text)).countP (fun d => ¬ d.passed) = 0)) ∧
    (clause.enforcement.level = .recommended →
      ((evaluate_clause clause text check_type).overall_passed = true ↔
        10 * ((((clause.detection_rules.filter (·.enabled)).map create_rule).map
          (·.evaluate text)).countP (·.passed)) ≥
          7 * (clause.detection_rules.filter (·.enabled)).length)) ∧
    (clause.enforcement.level = .optional →
      (evaluate_clause clause text check_type).overall_passed = true) := by
  rw [evaluate_clause_applies clause text check_type hcp hne]
  refine ⟨?_, ?_, ?_⟩ <;> intro hlev <;>
    simp only [evaluate_clause_main, hlev, decide_eq_true_eq, List.length_map,
      List.countP_map, ← List.countP_eq_length_filter, Function.comp_def]
  simp only [ge_iff_le]
  rw [ratio_seventy]

/-- Witness for C3 at the required-level scenario-A clause. -/
theorem C3_witness :
    ("pre_check" = "pre_check" ∧ clauseC002.enforcement.pre_check = true) ∧
    ((clauseC002.enforcement.level = .required →
      ((evaluate_clause clauseC002 "please diagnose my condition" "pre_check").overall_passed
          = true ↔
        (((clauseC002.detection_rules.filter (·.enabled)).map create_rule).map
          (·.evaluate "please diagnose my condition")).countP (fun d => ¬ d.passed) = 0)) ∧
     (clauseC002.enforcement.level = .recommended →
      ((evaluate_clause clauseC002 "please diagnose my condition" "pre_check").overall_passed
          = true ↔
        10 * ((((clauseC002.detection_rules.filter (·.enabled)).map create_rule).map
          (·.evaluate "please diagnose my condition")).countP (·.passed)) ≥
          7 * (clauseC002.detection_rules.filter (·.enabled)).length)) ∧
     (clauseC002.enforcement.level = .optional →
      (evaluate_clause clauseC002 "please diagnose my condition" "pre_check").overall_passed
        = true)) :=
  ⟨⟨rfl, rfl⟩,
    C3_overall_passed_by_level clauseC002 "please diagnose my condition" "pre_check"
      (Or.inl ⟨rfl, rfl⟩) (List.cons_ne_nil kwProhibitDiagnose [])⟩

/-- Claim C5: for a clause evaluated at a checkpoint it is configured for,
with at least one enabled rule, the clause score is the arithmetic mean of
all the evaluated rules' detection scores, failing rules included (a failing
factory-built rule always scores zero, so summing only the passing rules, as
the source loop does, yields the same mean). -/
theorem C5_clause_score_is_mean (clause : Clause) (text check_type : String)
    (hcp : (check_type = "pre_check" ∧ clause.enforcement.pre_check = true) ∨
           (check_type = "post_check" ∧ clause.enforcement.post_check = true))
    (hne : clause.detection_rules.filter (·.enabled) ≠ []) :
    (evaluate_clause clause text check_type).score =
      (((((clause.detection_rules.filter (·.enabled)).map create_rule).map
        (·.evaluate text)).map (·.score)).sum) /
      ((clause.detection_rules.filter (·.enabled)).length : ℚ) := by
  rw [evaluate_clause_applies clause text check_type hcp hne]
  have hpos : 0 < (clause.detection_rules.filter (·.enabled)).length :=
    List.length_pos.mpr hne
  have hz : ∀ d ∈ (((clause.detection_rules.filter (·.enabled)).map create_rule).map
      (·.evaluate text)), d.passed = false → d.score = 0 := by
    intro d hd hdp
    rw [List.map_map] at hd
    obtain ⟨rc, _, rfl⟩ := List.mem_map.mp hd
    exact create_rule_fail_score_zero rc text hdp
  rw [← sum_scores_passed_eq_sum _ hz]
  simp only [evaluate_clause_main, List.length_map]
  rw [if_pos hpos]
  simp only [List.filter_map, List.map_map, Function.comp_def]

/-- Witness for C5 at the scenario-A clause: its single failing keyword rule
scores zero, so the clause score is the mean zero. -/
theorem C5_witness :
    (evaluate_clause clauseC002 "please diagnose my condition" "pre_check").score =
      (((((clauseC002.detection_rules.filter (·.enabled)).map create_rule).map
        (·.evaluate "please diagnose my condition")).map (·.score)).sum) /
      ((clauseC002.detection_rules.filter (·.enabled)).length : ℚ) :=
  C5_clause_score_is_mean clauseC002 "please diagnose my condition" "pre_check"
    (Or.inl ⟨rfl, rfl⟩) (List.cons_ne_nil kwProhibitDiagnose [])

/-! ### Batch evaluation lemmas -/

/-- Inserting a fresh key appends the binding. -/
theorem dictInsert_of_not_mem {α : Type} {l : List (String × α)} {k : String} (v : α)
    (h : k ∉ l.map Prod.fst) : dictInsert l k v = l ++ [(k, v)] := by
  induction l with
  | nil => rfl
  | cons p t ih =>
    unfold dictInsert
    rw [List.map_cons, List.mem_cons] at h
    push_neg at h
    rw [if_neg (fun he => h.1 he.symm), ih h.2]
    rfl

/-- A member of an updated dict is the new binding or an old member. -/
theorem mem_dictInsert {α : Type} {l : List (String × α)} {k : String} {v : α}
    {p : String × α} (hp : p ∈ dictInsert l k v) : p = (k, v) ∨ p ∈ l := by
  induction l with
  | nil =>
    unfold dictInsert at hp
    rw [List.mem_singleton] at hp
    exact Or.inl hp
  | cons q t ih =>
    unfold dictInsert at hp
    split_ifs at hp with hq
    · rw [List.mem_cons] at hp
      rcases hp with rfl | hp
      · exact Or.inl rfl
      · exact Or.inr (List.mem_cons_of_mem _ hp)
    · rw [List.mem_cons] at hp
      rcases hp with rfl | hp
      · exact Or.inr (List.mem_cons_self _ _)
      · rcases ih hp with h | h
        · exact Or.inl h
        · exact Or.inr (List.mem_cons_of_mem _ h)

/-- The batch dict build over clauses with distinct ids is just the evaluation
map, preserving document order. -/
theorem batch_evaluate_eq_map (clauses : List Clause) (text check_type : String)
    (hnd : (clauses.map (·.id)).Nodup) :
    batch_evaluate clauses text check_type =
      clauses.map (fun c => (c.id, evaluate_clause c text check_type)) := by
  have aux : ∀ (cls : List Clause) (acc : List (String × ClauseCheckResult)),
      (∀ c ∈ cls, c.id ∉ acc.map Prod.fst) → (cls.map (·.id)).Nodup →
      cls.foldl (fun results c => dictInsert results c.id (evaluate_clause c text check_type)) acc
        = acc ++ cls.map (fun c => (c.id, evaluate_clause c text check_type)) := by
    intro cls
    induction cls with
    | nil => intro acc _ _; simp
    | cons c cs ih =>
      intro acc hdisj hnd
      rw [List.map_cons, List.nodup_cons] at hnd
      rw [List.foldl_cons,
        dictInsert_of_not_mem _ (hdisj c (List.mem_cons_self c cs)),
        ih _ ?_ hnd.2]
      · simp
      · intro c' hc'
        rw [List.map_append, List.mem_append]
        rintro (h1 | h2)
        · exact hdisj c' (List.mem_cons_of_mem _ hc') h1
        · simp only [List.map_cons, List.map_nil, List.mem_singleton] at h2
          exact hnd.1 (h2 ▸ List.mem_map_of_mem (fun cl => cl.id) hc')
  rw [batch_evaluate, aux clauses [] (by simp) hnd, List.nil_append]

/-- Every entry of a batch evaluation is the evaluation of one of the
clauses, keyed by that clause's id. -/
theorem batch_mem {clauses : List Clause} {text check_type : String}
    {p : String × ClauseCheckResult} (hp : p ∈ batch_evaluate clauses text check_type) :
    ∃ c ∈ clauses, p = (c.id, evaluate_clause c text check_type) := by
  have aux : ∀ (cls : List Clause) (acc : List (String × ClauseCheckResult)),
      p ∈ cls.foldl
        (fun results c => dictInsert results c.id (evaluate_clause c text check_type)) acc →
      p ∈ acc ∨ ∃ c ∈ cls, p = (c.id, evaluate_clause c text check_type) := by
    intro cls
    induction cls with
    | nil => intro acc h; exact Or.inl h
    | cons c cs ih =>
      intro acc h
      rw [List.foldl_cons] at h
      rcases ih _ h with hin | ⟨c', hc', rfl⟩
      · rcases mem_dictInsert hin with rfl | hold
        · exact Or.inr ⟨c, List.mem_cons_self c cs, rfl⟩
        · exact Or.inl hold
      · exact Or.inr ⟨c', List.mem_cons_of_mem _ hc', rfl⟩
  rcases aux clauses [] hp with h | h
  · exact absurd h (List.not_mem_nil p)
  · exact h

/-- With distinct clause ids, the batch result at a clause's id is exactly
that clause's own evaluation. -/
theorem batch_lookup_eval (clauses : List Clause) (text check_type : String)
    (hnd : (clauses.map (·.id)).Nodup) :
    ∀ c ∈ clauses, (batch_evaluate clauses text check_type).lookup c.id =
      some (evaluate_clause c text check_type) := by
  rw [batch_evaluate_eq_map clauses text check_type hnd]
  induction clauses with
  | nil => intro c hc; exact absurd hc (List.not_mem_nil c)
  | cons d ds ih =>
    rw [List.map_cons, List.nodup_cons] at hnd
    intro c hc
    rcases List.mem_cons.mp hc with rfl | hc'
    · simp [List.lookup]
    · rw [List.map_cons, List.lookup]
      have hne : (c.id == d.id) = false := by
        rw [beq_eq_false_iff_ne]
        intro he
        exact hnd.1 (he ▸ List.mem_map_of_mem (fun cl => cl.id) hc')
      rw [hne]
      exact ih hnd.2 c hc'

/-! ### C7: a bad regex fails closed and is isolated -/

/-- Claim C7: a regex rule whose pattern failed to compile fails every
evaluation with the invalid-configuration message and score zero (whether
addressed directly or built by the factory from a config whose compile
outcome is an error); evaluation is total, every clause in a batch is
evaluated independently of the others, and check_input on a loaded engine
always returns a result. -/
theorem C7_bad_regex_fails_closed :
    (∀ (r : RegexRuleData) (t : String), r.compiled = false →
      ((Rule.regex r).evaluate t).passed = false ∧
      ((Rule.regex r).evaluate t).message = "正则表达式配置错误" ∧
      ((Rule.regex r).evaluate t).score = 0) ∧
    (∀ (rc : DetectionRuleConfig) (t : String), rc.rule_type = .regex_check →
      rc.config.regex_matches = none →
      ((create_rule rc).evaluate t).passed = false ∧
      ((create_rule rc).evaluate t).message = "正则表达式配置错误") ∧
    (∀ (clauses : List Clause) (t ct : String), (clauses.map (·.id)).Nodup →
      ∀ c ∈ clauses,
        (batch_evaluate clauses t ct).lookup c.id = some (evaluate_clause c t ct)) ∧
    (∀ (s : EngineState) (cfg : ConstitutionConfig) (t qid : String), s.config = some cfg →
      ∃ out, (check_input s t qid).2 = .ok out) := by
  refine ⟨?_, ?_, ?_, ?_⟩
  · intro r t h
    refine ⟨?_, ?_, ?_⟩ <;>
      simp [Rule.evaluate, RegexRuleData.evaluate, h]
  · intro rc t hty hnone
    constructor <;>
      simp [create_rule, hty, Rule.evaluate, RegexRuleData.evaluate, hnone]
  · exact fun clauses t ct hnd => batch_lookup_eval clauses t ct hnd
  · intro s cfg t qid hcfg
    simp [check_input, hcfg]

/-- Witness for C7 on a two-clause policy with one bad-regex clause: the bad
rule fails closed, the healthy clause is evaluated untouched, and
check_input still answers. -/
theorem C7_witness :
    ((Rule.regex badRegexData).evaluate "step count 500").passed = false ∧
    ((create_rule badRegexRule).evaluate "step count 500").message = "正则表达式配置错误" ∧
    (batch_evaluate [clauseBadRegex, clauseC002] "x" "pre_check").lookup clauseC002.id =
      some (evaluate_clause clauseC002 "x" "pre_check") ∧
    (∃ out, (check_input engineTwoClauses "x" "q1").2 = .ok out) :=
  ⟨(C7_bad_regex_fails_closed.1 badRegexData "step count 500" rfl).1,
    (C7_bad_regex_fails_closed.2.1 badRegexRule "step count 500" rfl rfl).2,
    C7_bad_regex_fails_closed.2.2.1 [clauseBadRegex, clauseC002] "x" "pre_check" (by decide)
      clauseC002 (List.mem_cons_of_mem clauseBadRegex (List.mem_cons_self clauseC002 [])),
    C7_bad_regex_fails_closed.2.2.2 engineTwoClauses _ "x" "q1" rfl⟩

/-! ### Decision engine lemmas -/

/-- A hit of the reject scan is a failing entry of the scanned results. -/
theorem find_reject_some {cfg : ConstitutionConfig}
    {results : List (String × ClauseCheckResult)} {q : String × Clause × ClauseCheckResult}
    (h : find_reject cfg results = some q) :
    (q.1, q.2.2) ∈ results ∧ q.2.2.overall_passed = false := by
  induction results with
  | nil => exact Option.noConfusion h
  | cons p rest ih =>
    obtain ⟨cid, r⟩ := p
    unfold find_reject at h
    split at h
    · split_ifs at h with hcond
      · cases h
        refine ⟨List.mem_cons_self _ _, ?_⟩
        rw [Bool.eq_false_iff]
        exact hcond.1
      · obtain ⟨hm, hp⟩ := ih h
        exact ⟨List.mem_cons_of_mem _ hm, hp⟩
    · obtain ⟨hm, hp⟩ := ih h
      exact ⟨List.mem_cons_of_mem _ hm, hp⟩

/-- The decision proceeds exactly when the reject scan found nothing. -/
theorem should_proceed_iff_no_reject (cfg : ConstitutionConfig)
    (results : List (String × ClauseCheckResult)) (user_input : String) :
    (make_enforcement_decision cfg results user_input).should_proceed = true ↔
      find_reject cfg results = none := by
  unfold make_enforcement_decision
  cases h : find_reject cfg results
  · simp only [h]
    constructor
    · intro _; trivial
    · intro _
      split_ifs <;> rfl
  · simp [h]

/-- The checkpoint summary passes exactly when every summarized clause result
passed. -/
theorem summarize_overall_iff (results : List (String × ClauseCheckResult))
    (check_type : String) :
    (summarize_check_results results check_type).overall_passed = true ↔
      ∀ p ∈ results, p.2.overall_passed = true := by
  unfold summarize_check_results
  by_cases h : results.isEmpty
  · rw [if_pos h, List.isEmpty_iff.mp h]
    simp
  · rw [if_neg h]
    simp only [decide_eq_true_eq]
    rw [List.filter_length_eq_length]
    constructor
    · intro hall p hp
      exact hall _ (List.mem_map_of_mem (fun q => q.2) hp)
    · intro hall v hv
      obtain ⟨p, hp, rfl⟩ := List.mem_map.mp hv
      exact hall p hp

/-! ### C4: the top-level overall_passed of check_input -/

/-- Counterexample to claim C4: on a policy whose single recommended-level
clause fails, check_input returns a clause result that failed, yet the
returned ConstitutionCheckResult has overall_passed true, because that field
copies the decision's should_proceed rather than the all-clauses-passed
summary. -/
theorem C4_counterexample :
    ∃ result decision,
      (check_input engineRecommended "x" "q1").2 = .ok (result, decision) ∧
      result.overall_passed = true ∧
      ∃ p ∈ batch_evaluate (get_clauses_with_pre_check cfgRecommended) "x" "pre_check",
        p.2.overall_passed = false := by
  have h1 : (evaluate_clause clauseRecommendedFailing "x" "pre_check").overall_passed = false := by
    rw [evaluate_clause_applies clauseRecommendedFailing "x" "pre_check"
      (Or.inl ⟨rfl, rfl⟩) (List.cons_ne_nil kwRequireData [])]
    have hc : (evaluate_clause_main clauseRecommendedFailing "x").overall_passed
        = decide ((((0:ℕ)):ℚ) ≥ (((1:ℕ)):ℚ) * (7/10)) := rfl
    rw [hc]
    exact decide_eq_false (by push_cast; norm_num)
  have hfr : find_reject cfgRecommended
      (batch_evaluate (get_clauses_with_pre_check cfgRecommended) "x" "pre_check") = none := by
    show find_reject cfgRecommended
      [("C-REC", evaluate_clause clauseRecommendedFailing "x" "pre_check")] = none
    unfold find_reject
    split
    · next c heq =>
        have hc : (some clauseRecommendedFailing : Option Clause) = some c := heq
        injection hc with hc'
        subst hc'
        rw [if_neg ?_]
        · rfl
        · rintro ⟨-, hlev, -⟩
          exact absurd hlev (by decide)
    · rfl
  refine ⟨_, _, rfl, ?_, ?_⟩
  · exact (should_proceed_iff_no_reject cfgRecommended _ "x").mpr hfr
  · exact ⟨("C-REC", evaluate_clause clauseRecommendedFailing "x" "pre_check"),
      List.mem_singleton.mpr rfl, h1⟩

/-- Claim C4 amended: the ConstitutionCheckResult returned by check_input has
overall_passed equal to the decision's should_proceed (true whenever all
evaluated pre-check clause results pass, but possibly also true when some
fail); the all-clauses-passed reading holds of the pre_check summary's
overall_passed instead. -/
theorem C4_amended_overall_passed (s : EngineState) (cfg : ConstitutionConfig)
    (text query_id : String) (hcfg : s.config = some cfg) :
    ∃ result decision summary,
      (check_input s text query_id).2 = .ok (result, decision) ∧
      result.overall_passed = decision.should_proceed ∧
      result.pre_check = some summary ∧
      (summary.overall_passed = true ↔
        ∀ p ∈ batch_evaluate (get_clauses_with_pre_check cfg) text "pre_check",
          p.2.overall_passed = true) ∧
      ((∀ p ∈ batch_evaluate (get_clauses_with_pre_check cfg) text "pre_check",
          p.2.overall_passed = true) → result.overall_passed = true) := by
  unfold check_input
  rw [hcfg]
  refine ⟨_, _, _, rfl, rfl, rfl, summarize_overall_iff _ "pre_check", ?_⟩
  intro hall
  show (make_enforcement_decision cfg _ text).should_proceed = true
  rw [should_proceed_iff_no_reject]
  cases hf : find_reject cfg
    (batch_evaluate (get_clauses_with_pre_check cfg) text "pre_check")
  · rfl
  · obtain ⟨hm, hp⟩ := find_reject_some hf
    rw [hall _ hm] at hp
    exact Bool.noConfusion hp

/-- Witness for the amended C4 at the recommended-failing policy. -/
theorem C4_amended_witness :
    ∃ result decision summary,
      (check_input engineRecommended "x" "q1").2 = .ok (result, decision) ∧
      result.overall_passed = decision.should_proceed ∧
      result.pre_check = some summary ∧
      (summary.overall_passed = true ↔
        ∀ p ∈ batch_evaluate (get_clauses_with_pre_check cfgRecommended) "x" "pre_check",
          p.2.overall_passed = true) ∧
      ((∀ p ∈ batch_evaluate (get_clauses_with_pre_check cfgRecommended) "x" "pre_check",
          p.2.overall_passed = true) → result.overall_passed = true) :=
  C4_amended_overall_passed engineRecommended cfgRecommended "x" "q1" rfl

/-! ### C10: corrections are idempotent -/

/-- Substring containment survives appending on the right. -/
theorem pyStrIn_append (d a b : String) (h : pyStrIn d a = true) :
    pyStrIn d (a ++ b) = true := by
  unfold pyStrIn at *
  rw [decide_eq_true_eq] at *
  obtain ⟨s, t, hst⟩ := h
  exact ⟨s, t ++ b.data, by rw [String.data_append, ← hst]; simp⟩

/-- After addDisclaimer the disclaimer is present. -/
theorem pyStrIn_addDisclaimer_self (a d : String) : pyStrIn d (addDisclaimer a d) = true := by
  unfold addDisclaimer
  split_ifs with h
  · exact h
  · unfold pyStrIn
    rw [decide_eq_true_eq]
    exact ⟨(a ++ "\n\n").data, [], by simp [String.data_append]⟩

/-- addDisclaimer never removes an already-present substring. -/
theorem pyStrIn_addDisclaimer_mono (a d e : String) (h : pyStrIn d a = true) :
    pyStrIn d (addDisclaimer a e) = true := by
  unfold addDisclaimer
  split_ifs
  · exact h
  · exact pyStrIn_append _ _ _ (pyStrIn_append _ _ _ h)

/-- One disclaimer step never removes an already-present substring. -/
theorem disclaimerStep_mono {α : Type} (g : α → Option String) (acc : String) (x : α)
    (d : String) (h : pyStrIn d acc = true) : pyStrIn d (disclaimerStep g acc x) = true := by
  unfold disclaimerStep
  split
  · exact pyStrIn_addDisclaimer_mono _ _ _ h
  · exact h

/-- A disclaimer fold never removes an already-present substring. -/
theorem foldl_disclaimerStep_mono {α : Type} (g : α → Option String) (L : List α)
    (acc d : String) (h : pyStrIn d acc = true) :
    pyStrIn d (L.foldl (disclaimerStep g) acc) = true := by
  induction L generalizing acc with
  | nil => exact h
  | cons x xs ih => exact ih _ (disclaimerStep_mono g acc x d h)

/-- After a disclaimer fold, the disclaimer of every processed entry is
present in the text. -/
theorem foldl_disclaimerStep_establishes {α : Type} (g : α → Option String) {x : α}
    {d : String} (hg : g x = some d) :
    ∀ (L : List α) (acc : String), x ∈ L →
      pyStrIn d (L.foldl (disclaimerStep g) acc) = true := by
  intro L
  induction L with
  | nil => intro acc hx; exact absurd hx (List.not_mem_nil x)
  | cons y ys ih =>
    intro acc hx
    rw [List.foldl_cons]
    rcases List.mem_cons.mp hx with rfl | hx'
    · apply foldl_disclaimerStep_mono
      unfold disclaimerStep
      rw [hg]
      exact pyStrIn_addDisclaimer_self _ _
    · exact ih _ hx'

/-- A disclaimer fold over entries whose disclaimers are all already present
leaves the text unchanged. -/
theorem foldl_disclaimerStep_noop {α : Type} (g : α → Option String) (L : List α)
    (acc : String) (h : ∀ x ∈ L, ∀ d, g x = some d → pyStrIn d acc = true) :
    L.foldl (disclaimerStep g) acc = acc := by
  induction L with
  | nil => rfl
  | cons x xs ih =>
    rw [List.foldl_cons]
    have hstep : disclaimerStep g acc x = acc := by
      unfold disclaimerStep
      split
      next d hd =>
        unfold addDisclaimer
        rw [if_pos (h x (List.mem_cons_self x xs) d hd)]
      next => rfl
    rw [hstep]
    exact ih (fun y hy d hd => h y (List.mem_cons_of_mem _ hy) d hd)

/-- apply_constitutional_corrections, when a correction is required, is the
two disclaimer folds over the post-check details and the high-risk entries. -/
theorem apply_corrections_eq (cfg : ConstitutionConfig) (text : String)
    (cr : ConstitutionCheckResult) (h : cr.requires_correction = true) :
    apply_constitutional_corrections cfg text cr =
      (get_high_risk_clauses (post_details cr)).foldl (disclaimerStep (extractDisclaimer2 cfg))
        ((post_details cr).foldl (disclaimerStep (extractDisclaimer1 cfg)) text) := by
  unfold apply_constitutional_corrections
  rw [if_neg (show ¬ ¬ cr.requires_correction = true from fun hc => hc h)]
  show (get_high_risk_clauses (post_details cr)).foldl
      (fun acc p =>
        match get_clause_by_id cfg p.1 with
        | some c =>
          if c.enforcement.level = .required then apply_clause_corrections acc c else acc
        | none => acc)
      ((post_details cr).foldl
        (fun acc p =>
          match get_clause_by_id cfg p.1 with
          | some c =>
            if c.required_disclaimer.getD "" ≠ "" then
              addDisclaimer acc (c.required_disclaimer.getD "")
            else acc
          | none => acc)
        text) = _
  have h1 : ∀ (acc : String), ∀ p ∈ post_details cr,
      (match get_clause_by_id cfg p.1 with
        | some c =>
          if c.required_disclaimer.getD "" ≠ "" then
            addDisclaimer acc (c.required_disclaimer.getD "")
          else acc
        | none => acc) = disclaimerStep (extractDisclaimer1 cfg) acc p := by
    intro acc p _
    unfold disclaimerStep extractDisclaimer1
    cases hg : get_clause_by_id cfg p.1 <;> simp only [hg]
    split_ifs <;> rfl
  have h2 : ∀ (acc : String), ∀ p ∈ get_high_risk_clauses (post_details cr),
      (match get_clause_by_id cfg p.1 with
        | some c =>
          if c.enforcement.level = .required then apply_clause_corrections acc c else acc
        | none => acc) = disclaimerStep (extractDisclaimer2 cfg) acc p := by
    intro acc p _
    unfold disclaimerStep extractDisclaimer2 apply_clause_corrections
    cases hg : get_clause_by_id cfg p.1 <;> simp only [hg]
    split_ifs <;> rfl
  rw [List.foldl_ext _ (disclaimerStep (extractDisclaimer1 cfg)) text h1,
    List.foldl_ext _ (disclaimerStep (extractDisclaimer2 cfg)) _ h2]

/-- With no correction required, apply_constitutional_corrections is the
identity. -/
theorem apply_corrections_noop (cfg : ConstitutionConfig) (text : String)
    (cr : ConstitutionCheckResult) (h : cr.requires_correction = false) :
    apply_constitutional_corrections cfg text cr = text := by
  unfold apply_constitutional_corrections
  rw [if_pos (show ¬ cr.requires_correction = true by rw [h]; exact Bool.false_ne_true)]

/-- Claim C10: apply_constitutional_corrections is idempotent for a fixed
check result (a disclaimer already appended is never appended again), and it
returns the text unchanged when no correction is required. -/
theorem C10_apply_corrections_idempotent (cfg : ConstitutionConfig) (text : String)
    (cr : ConstitutionCheckResult) :
    apply_constitutional_corrections cfg (apply_constitutional_corrections cfg text cr) cr =
      apply_constitutional_corrections cfg text cr ∧
    (cr.requires_correction = false →
      apply_constitutional_corrections cfg text cr = text) := by
  refine ⟨?_, fun h => apply_corrections_noop cfg text cr h⟩
  by_cases h : cr.requires_correction = true
  · rw [apply_corrections_eq cfg text cr h, apply_corrections_eq cfg _ cr h]
    have hA1 : (post_details cr).foldl (disclaimerStep (extractDisclaimer1 cfg))
        ((get_high_risk_clauses (post_details cr)).foldl
          (disclaimerStep (extractDisclaimer2 cfg))
          ((post_details cr).foldl (disclaimerStep (extractDisclaimer1 cfg)) text)) =
        (get_high_risk_clauses (post_details cr)).foldl
          (disclaimerStep (extractDisclaimer2 cfg))
          ((post_details cr).foldl (disclaimerStep (extractDisclaimer1 cfg)) text) := by
      apply foldl_disclaimerStep_noop
      intro x hx d hd
      exact foldl_disclaimerStep_mono _ _ _ _
        (foldl_disclaimerStep_establishes _ hd _ text hx)
    rw [hA1]
    apply foldl_disclaimerStep_noop
    intro y hy d hd
    exact foldl_disclaimerStep_establishes _ hd _ _ hy
  · have hf : cr.requires_correction = false := Bool.eq_false_iff.mpr h
    rw [apply_corrections_noop cfg text cr hf, apply_corrections_noop cfg text cr hf]

/-- Witness for C10 at a concrete correcting check result. -/
theorem C10_witness :
    apply_constitutional_corrections cfgDisclaimer
        (apply_constitutional_corrections cfgDisclaimer "注意休息" crWithCorrection)
        crWithCorrection =
      apply_constitutional_corrections cfgDisclaimer "注意休息" crWithCorrection ∧
    (crWithCorrection.requires_correction = false →
      apply_constitutional_corrections cfgDisclaimer "注意休息" crWithCorrection = "注意休息") :=
  C10_apply_corrections_idempotent cfgDisclaimer "注意休息" crWithCorrection

/-! ### C1: a required reject clause blocks the decision -/

/-- A clause result that passed overall suggests no actions. -/
theorem suggested_empty_of_passed (clause : Clause) (t ct : String)
    (hop : (evaluate_clause clause t ct).overall_passed = true) :
    (evaluate_clause clause t ct).suggested_actions = [] := by
  unfold evaluate_clause at hop ⊢
  split_ifs at hop ⊢
  · exact (skipped_result_fields clause).2
  · exact (skipped_result_fields clause).2
  · exact (skipped_result_fields clause).2
  · rw [main_suggested_actions, hop]
    rfl

/-- A clause result that suggests reject failed overall. -/
theorem reject_mem_implies_failed (clause : Clause) (t ct : String)
    (h : ViolationAction.reject ∈ (evaluate_clause clause t ct).suggested_actions) :
    (evaluate_clause clause t ct).overall_passed = false := by
  cases hop : (evaluate_clause clause t ct).overall_passed
  · rfl
  · rw [suggested_empty_of_passed clause t ct hop] at h
    exact absurd h (List.not_mem_nil _)

/-- Characterization of the reject-qualification predicate. -/
theorem reject_qualifies_iff (cfg : ConstitutionConfig) (p : String × ClauseCheckResult) :
    reject_qualifies cfg p = true ↔
      ∃ c, get_clause_by_id cfg p.1 = some c ∧ c.enforcement.level = .required ∧
        p.2.suggested_actions.contains ViolationAction.reject = true := by
  unfold reject_qualifies
  cases hg : get_clause_by_id cfg p.1 <;> simp [hg]

/-- On results where a reject suggestion implies overall failure (as every
batch result satisfies), the source's reject scan agrees with the first
qualifying entry of the claim's predicate. -/
theorem find_reject_eq_find? (cfg : ConstitutionConfig) :
    ∀ (results : List (String × ClauseCheckResult)),
      (∀ p ∈ results, p.2.suggested_actions.contains ViolationAction.reject = true →
        p.2.overall_passed = false) →
      ∀ {p}, List.find? (reject_qualifies cfg) results = some p →
        ∃ c, get_clause_by_id cfg p.1 = some c ∧
          find_reject cfg results = some (p.1, c, p.2) := by
  intro results
  induction results with
  | nil =>
    intro _ p h
    exact Option.noConfusion h
  | cons q rest ih =>
    intro H p h
    obtain ⟨cid, r⟩ := q
    cases hq : reject_qualifies cfg (cid, r)
    · rw [List.find?_cons_of_neg _ (by rw [hq]; exact Bool.false_ne_true)] at h
      obtain ⟨c, hgc, hfr⟩ := ih (fun p' hp' => H p' (List.mem_cons_of_mem _ hp')) h
      refine ⟨c, hgc, ?_⟩
      unfold find_reject
      split
      · next c' heq =>
          rw [if_neg ?_]
          · exact hfr
          · rintro ⟨-, hreq, hcont⟩
            have := (reject_qualifies_iff cfg (cid, r)).mpr ⟨c', heq, hreq, hcont⟩
            rw [hq] at this
            exact Bool.noConfusion this
      · exact hfr
    · rw [List.find?_cons_of_pos _ hq] at h
      cases h
      obtain ⟨c, hgc, hreq, hcont⟩ := (reject_qualifies_iff cfg (cid, r)).mp hq
      refine ⟨c, hgc, ?_⟩
      unfold find_reject
      split
      · next c' heq =>
          have hcc : c' = c := by
            have h3 := hgc.symm.trans heq
            injection h3 with h4
            exact h4.symm
          subst hcc
          have hH : r.overall_passed = false := H (cid, r) (List.mem_cons_self _ _) hcont
          rw [if_pos ⟨by rw [hH]; exact Bool.false_ne_true, hreq, hcont⟩]
      · next heq => exact Option.noConfusion (hgc.symm.trans heq)

/-- A nonzero-length string is not empty. -/
theorem str_ne_empty_of_length_pos (s : String) (h : 0 < s.length) : s ≠ "" := by
  intro he
  rw [he] at h
  exact Nat.lt_irrefl 0 h

/-- A nonempty string has positive length. -/
theorem length_pos_of_ne_empty (s : String) (h : s ≠ "") : 0 < s.length := by
  cases s with
  | mk data =>
    cases data with
    | nil => exact absurd rfl h
    | cons a t => exact Nat.succ_pos _

/-- The safe response of a rejecting clause is never the empty string: the
configured message passed the truthiness test, and the templated fallback has
a fixed nonempty prefix; appending tool suggestions keeps it nonempty. -/
theorem generate_safe_response_ne_empty (clause : Clause) (user_input : String) :
    generate_safe_response clause user_input ≠ "" := by
  unfold generate_safe_response
  have hlit : 0 < ("抱歉，根据\x27" ++ clause.name ++ "\x27，我无法处理这个请求。").length := by
    rw [String.length_append, String.length_append]
    have h6 : ("抱歉，根据\x27" : String).length = 6 := rfl
    omega
  split_ifs <;> split
  · next ac hf =>
      have hpred := List.find?_some hf
      rw [decide_eq_true_eq] at hpred
      exact str_ne_empty_of_length_pos _ (length_pos_of_ne_empty _ hpred.2)
  · next hf => exact str_ne_empty_of_length_pos _ hlit
  · next ac hf =>
      have hpred := List.find?_some hf
      rw [decide_eq_true_eq] at hpred
      have hmsg := length_pos_of_ne_empty _ hpred.2
      apply str_ne_empty_of_length_pos
      rw [String.length_append, String.length_append]
      omega
  · next hf =>
      apply str_ne_empty_of_length_pos
      rw [String.length_append, String.length_append]
      omega

/-- Claim C1: on a loaded policy with distinct clause ids, if some pre-check
clause result resolves to a required-level clause and suggests reject, then
check_input returns a decision with should_proceed false and a nonempty safe
response, namely the one generated from the first such clause in document
order (its configured reject message or the templated refusal naming it,
plus tool suggestions), and the result's overall_passed is false as well. -/
theorem C1_required_reject_decision (s : EngineState) (cfg : ConstitutionConfig)
    (text query_id : String) (hcfg : s.config = some cfg)
    (_hnd : (cfg.clauses.map (·.id)).Nodup)
    (hex : ∃ p ∈ batch_evaluate (get_clauses_with_pre_check cfg) text "pre_check",
      reject_qualifies cfg p = true) :
    ∃ result decision p c,
      (check_input s text query_id).2 = .ok (result, decision) ∧
      decision.should_proceed = false ∧
      result.overall_passed = false ∧
      List.find? (reject_qualifies cfg)
        (batch_evaluate (get_clauses_with_pre_check cfg) text "pre_check") = some p ∧
      get_clause_by_id cfg p.1 = some c ∧
      decision.safe_response = some (generate_safe_response c text) ∧
      generate_safe_response c text ≠ "" := by
  have H : ∀ p ∈ batch_evaluate (get_clauses_with_pre_check cfg) text "pre_check",
      p.2.suggested_actions.contains ViolationAction.reject = true →
      p.2.overall_passed = false := by
    intro p hp hcont
    obtain ⟨c', _, rfl⟩ := batch_mem hp
    exact reject_mem_implies_failed c' text "pre_check" (List.elem_iff.mp hcont)
  obtain ⟨p0, hp0, hq0⟩ := hex
  obtain ⟨p, hfind⟩ := Option.isSome_iff_exists.mp (List.find?_isSome.mpr ⟨p0, hp0, hq0⟩)
  obtain ⟨c, hgc, hfr⟩ :=
    find_reject_eq_find? cfg (batch_evaluate (get_clauses_with_pre_check cfg) text "pre_check")
      H hfind
  have hsp : (make_enforcement_decision cfg
      (batch_evaluate (get_clauses_with_pre_check cfg) text "pre_check")
      text).should_proceed = false := by
    unfold make_enforcement_decision
    rw [hfr]
  have hsr : (make_enforcement_decision cfg
      (batch_evaluate (get_clauses_with_pre_check cfg) text "pre_check")
      text).safe_response = some (generate_safe_response c text) := by
    unfold make_enforcement_decision
    rw [hfr]
  unfold check_input
  rw [hcfg]
  exact ⟨_, _, p, c, rfl, hsp, hsp, hfind, hgc, hsr, generate_safe_response_ne_empty c text⟩

/-- A required-level clause with failures at a failure ratio of at least one
half has violation level high. -/
theorem determine_vl_required (clause : Clause) (hlev : clause.enforcement.level = .required)
    (failed : List String) (total : Nat) (hf : failed ≠ [])
    (hr : ((failed.length : ℚ) / (total : ℚ) ≥ 1/2)) :
    determine_violation_level clause failed total = "high" := by
  unfold determine_violation_level
  rw [if_neg hf]
  simp only [hlev]
  rw [if_pos hr]

/-- The scenario-A clause result qualifies for rejection: it fails on the
diagnosis request, its violation level is high, and its configured reject
action survives the high whitelist. -/
theorem c002_qualifies :
    reject_qualifies cfgC002
      ("C-002", evaluate_clause clauseC002 "please diagnose my condition" "pre_check") = true := by
  have hvl : (evaluate_clause clauseC002 "please diagnose my condition"
      "pre_check").violation_level = "high" := by
    have h1 : (evaluate_clause clauseC002 "please diagnose my condition"
        "pre_check").violation_level = determine_violation_level clauseC002 ["R-002"] 1 := rfl
    rw [h1]
    exact determine_vl_required clauseC002 rfl ["R-002"] 1 (by decide) (by norm_num)
  have hop : (evaluate_clause clauseC002 "please diagnose my condition"
      "pre_check").overall_passed = false := rfl
  have h2 : (evaluate_clause clauseC002 "please diagnose my condition"
      "pre_check").suggested_actions =
      get_suggested_actions clauseC002
        (evaluate_clause clauseC002 "please diagnose my condition" "pre_check").overall_passed
        (evaluate_clause clauseC002 "please diagnose my condition" "pre_check").violation_level :=
    main_suggested_actions clauseC002 "please diagnose my condition"
  apply (reject_qualifies_iff cfgC002 _).mpr
  refine ⟨clauseC002, rfl, rfl, ?_⟩
  show (evaluate_clause clauseC002 "please diagnose my condition"
    "pre_check").suggested_actions.contains ViolationAction.reject = true
  rw [h2, hop, hvl]
  decide

/-- Witness for C1: end-to-end scenario A — the required clause C-002 rejects
the input asking for a diagnosis, with a nonempty safe response. -/
theorem C1_witness :
    ∃ result decision p c,
      (check_input engineC002 "please diagnose my condition" "q1").2 = .ok (result, decision) ∧
      decision.should_proceed = false ∧
      result.overall_passed = false ∧
      List.find? (reject_qualifies cfgC002)
        (batch_evaluate (get_clauses_with_pre_check cfgC002)
          "please diagnose my condition" "pre_check") = some p ∧
      get_clause_by_id cfgC002 p.1 = some c ∧
      decision.safe_response = some (generate_safe_response c "please diagnose my condition") ∧
      generate_safe_response c "please diagnose my condition" ≠ "" :=
  C1_required_reject_decision engineC002 cfgC002 "please diagnose my condition" "q1" rfl
    (by decide)
    ⟨("C-002", evaluate_clause clauseC002 "please diagnose my condition" "pre_check"),
      List.mem_singleton.mpr rfl, c002_qualifies⟩

/-! ### C2: prohibited keywords always fail the keyword rule -/

/-- Claim C2: for every keyword rule configuration and every text, if the text
contains (as a substring, under the configured case rule) at least one entry
of the configured prohibited keywords, the keyword rule evaluation fails,
whatever the match mode and whatever required keywords are found. -/
theorem C2_prohibited_keyword_fails (rule_id : String) (cfg : RuleConfigData) (w : ℚ)
    (text k : String) (hk : k ∈ cfg.prohibited_keywords)
    (hsub : pyStrIn (if cfg.case_sensitive then k else pyLower k)
              (if cfg.case_sensitive then text else pyLower text) = true) :
    ((mkKeywordRule rule_id cfg w).evaluate text).passed = false := by
  have hcs : (mkKeywordRule rule_id cfg w).case_sensitive = cfg.case_sensitive := rfl
  have hmem : (if cfg.case_sensitive then k else pyLower k) ∈
      (mkKeywordRule rule_id cfg w).prohibited_keywords := by
    cases h : cfg.case_sensitive <;> simp [mkKeywordRule, h]
    · exact ⟨k, hk, rfl⟩
    · exact hk
  have hfp : (mkKeywordRule rule_id cfg w).prohibited_keywords.filter
      (fun kk => pyStrIn kk
        (if (mkKeywordRule rule_id cfg w).case_sensitive then text else pyLower text)) ≠ [] := by
    apply List.ne_nil_of_mem (a := if cfg.case_sensitive then k else pyLower k)
    rw [List.mem_filter]
    exact ⟨hmem, by rw [hcs]; exact hsub⟩
  show (mkKeywordRule rule_id cfg w).checkMatchPassed _ _ = false
  rw [KeywordRuleData.checkMatchPassed, if_pos hfp]

/-- Witness for C2: the case-insensitive rule prohibiting Diagnose fails on a
text containing DIAGNOSE, although its required keyword is also present. -/
theorem C2_witness :
    "Diagnose" ∈ cfgW2.prohibited_keywords ∧
    ((mkKeywordRule "R-W2" cfgW2 1).evaluate "please DIAGNOSE my condition").passed = false :=
  ⟨by decide,
    C2_prohibited_keyword_fails "R-W2" cfgW2 1 "please DIAGNOSE my condition" "Diagnose"
      (by decide) (by decide)⟩

end Constitution
